import Mathlib

/-!
# Verification of the Game-of-Life core (Grid + PatternManager)

Shallow embedding of the repository's core, translated from
`src/core/Grid.cpp` / `src/core/Grid.hpp` and
`src/patterns/PatternManager.cpp` / `src/patterns/PatternManager.hpp`.

Conventions of the embedding:
* `std::vector<std::vector<bool>>` becomes `List (List Bool)`, indexed
  row-major as `cells[y][x]` exactly as in the source; reads go through
  `List.getD` (in the source, in-range indexing is guaranteed by the class
  invariant that the matrix is `height` rows of `width` columns — stated
  here as `Grid.WF`).
* `unsigned int` values are `Nat`s below `2^32`; unsigned arithmetic that
  can leave that range (`startX + pattern.width` in `canFitPattern`,
  `grid.width - pattern.width` in `calculateCenterPosition`,
  `startX + x` in `placePattern`, and the `size_t → unsigned int`
  truncation in the `Pattern` constructor) is taken modulo `2^32`
  (`uadd` / `usub`), which is the defined C++ semantics.
* The `static_cast<int>` conversions in `countLiveNeighbors` are modelled
  by `toInt32`, the two's-complement reinterpretation of an `unsigned int`
  value: the value modulo `2^32`, mapped into `[-2^31, 2^31)`.  A value at
  or above `2^31` therefore wraps to a negative `int`, exactly as in the
  compiled code — on a grid with a dimension `≥ 2^31` every neighbor
  comparison `nx < static_cast<int>(width)` (resp. height) fails and the
  count is 0.
* C++ methods that mutate the grid in place become functions
  `Grid → Grid`; methods of `PatternManager` that can throw return the
  post-state of the (manager, grid) pair together with an optional error
  (`PMResult`), mirroring the statement order of the source so that the
  point at which an exception is raised is visible.
-/

/-! ## PatternManager (`src/patterns/PatternManager.cpp`) -/

/-! ## Definitions -/

/-- `2^32`, the modulus of C++ `unsigned int` arithmetic. -/
def U32MOD : Nat := 4294967296

/-- C++ `unsigned int` addition: `(a + b) mod 2^32`. -/
def uadd (a b : Nat) : Nat := (a + b) % U32MOD

/-- C++ `unsigned int` subtraction: `(a - b) mod 2^32` (wraps on underflow). -/
def usub (a b : Nat) : Nat := (U32MOD + a % U32MOD - b % U32MOD) % U32MOD

/-- `static_cast<int>` applied to an `unsigned int` value: the
two's-complement reinterpretation, i.e. the value modulo `2^32` mapped
into `[-2^31, 2^31)` — values at or above `2^31` wrap to negative
`int`s. -/
def toInt32 (n : Nat) : Int :=
  if n % 4294967296 < 2147483648 then ((n % 4294967296 : Nat) : Int)
  else ((n % 4294967296 : Nat) : Int) - 4294967296

/-- The grid data model from `Grid.hpp`: dimensions plus the row-major
boolean matrix `cells[y][x]`. -/
structure Grid where
  width : Nat
  height : Nat
  cells : List (List Bool)
  deriving DecidableEq, Repr

/-- The class invariant from the spec (§3): the matrix is exactly
`height` rows of `width` entries.  Every grid reachable through the C++
interface satisfies it. -/
def Grid.WF (g : Grid) : Prop :=
  g.cells.length = g.height ∧ ∀ row ∈ g.cells, row.length = g.width

instance (g : Grid) : Decidable g.WF := by
  unfold Grid.WF; infer_instance

/-- `Grid::Grid(width, height)`: a `height × width` matrix of dead cells. -/
def Grid.make (w h : Nat) : Grid :=
  ⟨w, h, List.replicate h (List.replicate w false)⟩

/-- `Grid::isValidPosition`: `x < width && y < height`. -/
def Grid.isValidPosition (g : Grid) (x y : Nat) : Bool :=
  decide (x < g.width) && decide (y < g.height)

/-- The raw matrix read `cells[y][x]` (used by the source wherever the
position is known to be in range). -/
def Grid.cellAt (g : Grid) (x y : Nat) : Bool :=
  (g.cells.getD y []).getD x false

/-- `Grid::getCell`: bounds-checked read, `false` out of bounds. -/
def Grid.getCell (g : Grid) (x y : Nat) : Bool :=
  if g.isValidPosition x y then g.cellAt x y else false

/-- `Grid::setCell`: bounds-checked write, no-op out of bounds. -/
def Grid.setCell (g : Grid) (x y : Nat) (alive : Bool) : Grid :=
  if g.isValidPosition x y then
    { g with cells := g.cells.set y ((g.cells.getD y []).set x alive) }
  else g

/-- `Grid::toggleCell`: bounds-checked flip, no-op out of bounds. -/
def Grid.toggleCell (g : Grid) (x y : Nat) : Grid :=
  if g.isValidPosition x y then
    { g with cells := g.cells.set y ((g.cells.getD y []).set x (!g.cellAt x y)) }
  else g

/-- `Grid::clear()`: the double loop writes `false` into every in-range
entry; on a grid satisfying the dimension invariant the result is the
all-dead `height × width` matrix. -/
def Grid.clear (g : Grid) : Grid :=
  { g with cells := List.replicate g.height (List.replicate g.width false) }

/-- One term of the neighbor loop in `Grid::countLiveNeighbors`:
`nx = static_cast<int>(x) + dx` and `ny = static_cast<int>(y) + dy`
(the casts wrap mod `2^32` into `[-2^31, 2^31)`), and the offset
contributes `1` exactly when
`nx >= 0 && nx < static_cast<int>(width) && ny >= 0 && ny < static_cast<int>(height)`
holds and `cells[ny][nx]` is alive.  (In the one corner where the C++
`int` sum itself could overflow — `static_cast<int>(x) = 2^31 - 1` with
`dx = 1` — the unwrapped sum `2^31` used here exceeds every possible
`static_cast<int>(width) < 2^31`, and the wrapped sum `-2^31` is
negative, so the guard is false under either reading and the term is 0
either way.) -/
def Grid.neighborTerm (g : Grid) (x y : Nat) (dx dy : Int) : Nat :=
  let nx : Int := toInt32 x + dx
  let ny : Int := toInt32 y + dy
  if 0 ≤ nx ∧ nx < toInt32 g.width ∧ 0 ≤ ny ∧ ny < toInt32 g.height then
    (if g.cellAt nx.toNat ny.toNat then 1 else 0)
  else 0

/-- `Grid::countLiveNeighbors`: the `dy` outer / `dx` inner double loop
over `{-1,0,1}²` skipping `(0,0)`, unrolled in source order. -/
def Grid.countLiveNeighbors (g : Grid) (x y : Nat) : Nat :=
  g.neighborTerm x y (-1) (-1) + g.neighborTerm x y 0 (-1) +
    g.neighborTerm x y 1 (-1) + g.neighborTerm x y (-1) 0 +
    g.neighborTerm x y 1 0 + g.neighborTerm x y (-1) 1 +
    g.neighborTerm x y 0 1 + g.neighborTerm x y 1 1

/-- The fresh `height × width` matrix built entry by entry by a double
loop (the shape of `nextCells` in `Grid::nextGeneration`). -/
def mkCells (w h : Nat) (f : Nat → Nat → Bool) : List (List Bool) :=
  (List.range h).map fun y => (List.range w).map fun x => f x y

/-- `Grid::nextGeneration()`: builds a fresh matrix in which an entry is
`true` exactly when the source's two branches set it (alive with 2 or 3
live neighbors survives; dead with exactly 3 is born), then swaps it in.
All neighbor counts read the old matrix. -/
def Grid.nextGeneration (g : Grid) : Grid :=
  { g with
    cells := mkCells g.width g.height fun x y =>
      if g.cellAt x y then
        decide (g.countLiveNeighbors x y = 2 ∨ g.countLiveNeighbors x y = 3)
      else
        decide (g.countLiveNeighbors x y = 3) }

/-- The cell written by the 3×3-grid rule-correctness example: only the
center of a fresh 3×3 grid is alive. -/
def centerGrid : Grid := (Grid.make 3 3).setCell 1 1 true

/-- The sum-of-offsets formulation of the neighbor count, following the
spec's words in §4.1: each of the 8 offsets contributes one when it lands
inside the grid on a live cell, and zero when it lands outside
(`getCell` already reads out-of-range positions as dead, so only
nonnegativity of the offset coordinate needs guarding here). -/
def neighborOffsets : List (Int × Int) :=
  [(-1, -1), (0, -1), (1, -1), (-1, 0), (1, 0), (-1, 1), (0, 1), (1, 1)]

/-- The neighbor count as the spec states it: the number of live cells
among the 8 surrounding offsets, out-of-bounds offsets contributing zero. -/
def specNeighborCount (g : Grid) (x y : Nat) : Nat :=
  (neighborOffsets.map fun d =>
    if 0 ≤ (x : Int) + d.1 ∧ 0 ≤ (y : Int) + d.2 ∧
        g.getCell ((x : Int) + d.1).toNat ((y : Int) + d.2).toNat then 1 else 0).sum

/-- The `Pattern` struct: name, description, mask, and the cached
dimensions derived by the constructor. -/
structure Pattern where
  name : String
  description : String
  cells : List (List Bool)
  width : Nat
  height : Nat
  deriving DecidableEq, Repr

/-- The `Pattern` constructor: `height = cells.size()` (a `size_t`
truncated into the `unsigned int` member, hence mod `2^32`) and
`width = height > 0 ? cells[0].size() : 0` (same truncation). -/
def Pattern.make (name desc : String) (pattern : List (List Bool)) : Pattern :=
  let h := pattern.length % U32MOD
  let w := if h > 0 then (pattern.getD 0 []).length % U32MOD else 0
  ⟨name, desc, pattern, w, h⟩

/-- A raw read of the pattern mask, `pattern.cells[y][x]`. -/
def Pattern.maskAt (p : Pattern) (x y : Nat) : Bool :=
  (p.cells.getD y []).getD x false

/-- The two exceptions the manager can throw
(`std::invalid_argument("Pattern not found: ...")` and
`std::invalid_argument("Pattern does not fit at specified position")`). -/
inductive PMError where
  | patternNotFound
  | patternDoesNotFit
  deriving DecidableEq, Repr

/-- The registry: `std::map<std::string, Pattern>`, modelled as an
association list with unique keys (lookup by key equality agrees with the
ordered map, and `std::map::insert`/`emplace` keep the list key-unique). -/
structure PatternManager where
  patterns : List (String × Pattern)
  deriving DecidableEq, Repr

/-- `patterns.find(name)` as an association-list lookup. -/
def PatternManager.find? (m : PatternManager) (name : String) : Option Pattern :=
  (m.patterns.find? fun e => e.1 = name).map (·.2)

/-- `PatternManager::hasPattern`: `patterns.find(name) != patterns.end()`. -/
def PatternManager.hasPattern (m : PatternManager) (name : String) : Bool :=
  (m.find? name).isSome

/-- `PatternManager::registerPattern(name, pattern)`:
`patterns.insert(std::make_pair(name, pattern))`.  `std::map::insert`
does NOT overwrite: when the key is already present the map is left
unchanged and the new value is discarded. -/
def PatternManager.registerPattern (m : PatternManager) (name : String)
    (p : Pattern) : PatternManager :=
  if (m.find? name).isSome then m else ⟨m.patterns ++ [(name, p)]⟩

/-- The `registerPattern(name, description, cells)` overload:
`patterns.emplace(name, Pattern(name, description, cells))`.
`std::map::emplace` likewise inserts only when the key is absent. -/
def PatternManager.registerPatternCells (m : PatternManager) (name desc : String)
    (cells : List (List Bool)) : PatternManager :=
  m.registerPattern name (Pattern.make name desc cells)

/-- `PatternManager::getPattern`: throws `PatternNotFound` when the name
is absent, otherwise returns the stored pattern. -/
def PatternManager.getPattern (m : PatternManager) (name : String) :
    Except PMError Pattern :=
  match m.find? name with
  | some p => .ok p
  | none => .error .patternNotFound

/-- `PatternManager::canFitPattern`:
`startX + pattern.width <= grid.width && startY + pattern.height <= grid.height`
in `unsigned int` arithmetic (the sums wrap modulo `2^32`). -/
def canFitPattern (g : Grid) (p : Pattern) (startX startY : Nat) : Bool :=
  decide (uadd startX p.width ≤ g.width) && decide (uadd startY p.height ≤ g.height)

/-- `PatternManager::calculateCenterPosition`:
`((grid.width - pattern.width) / 2, (grid.height - pattern.height) / 2)`
with the subtractions performed in `unsigned int` arithmetic (they wrap
modulo `2^32` when the pattern is larger than the grid). -/
def calculateCenterPosition (g : Grid) (p : Pattern) : Nat × Nat :=
  (usub g.width p.width / 2, usub g.height p.height / 2)

/-- `PatternManager::placePattern`: the double loop over the mask; every
mask cell that is alive issues a bounds-checked
`grid.setCell(startX + x, startY + y, true)` (`unsigned int` sums). -/
def placePattern (g : Grid) (p : Pattern) (startX startY : Nat) : Grid :=
  (List.range p.height).foldl
    (fun g1 y =>
      (List.range p.width).foldl
        (fun g2 x =>
          if p.maskAt x y then g2.setCell (uadd startX x) (uadd startY y) true
          else g2)
        g1)
    g

/-- `PatternManager::clearGrid`: delegates to `Grid::clear()`. -/
def clearGrid (g : Grid) : Grid := g.clear

/-- `PatternManager::applyRandomPattern(grid, density = 0.3f)`: clears the
grid, then sets each cell alive when a freshly sampled uniform float is
below `density`.  The nondeterministic sampling pass is abstracted as the
parameter `rf`, applied to the cleared grid and the density. -/
def applyRandomPattern (rf : Grid → Float → Grid) (g : Grid) (density : Float) :
    Grid :=
  rf g.clear density

/-- The default density of `applyRandomPattern`. -/
def defaultDensity : Float := 0.3

/-- Post-state of a `PatternManager` method that mutates a grid and can
throw: the registry, the grid, and the exception if one was raised. -/
structure PMResult where
  manager : PatternManager
  grid : Grid
  err : Option PMError
  deriving Repr

/-- `PatternManager::applyPatternAt`, statement by statement: the
`hasPattern` check (throw `PatternNotFound`), the `getPattern` call
(whose own throw would propagate), the `canFitPattern` check (throw
`PatternDoesNotFit`), then `placePattern`.  Both throws happen before any
mutation. -/
def runApplyPatternAt (m : PatternManager) (g : Grid) (name : String)
    (startX startY : Nat) : PMResult :=
  if m.hasPattern name = false then ⟨m, g, some .patternNotFound⟩
  else
    match m.getPattern name with
    | .error e => ⟨m, g, some e⟩
    | .ok p =>
      if canFitPattern g p startX startY = false then ⟨m, g, some .patternDoesNotFit⟩
      else ⟨m, placePattern g p startX startY, none⟩

/-- `PatternManager::applyPatternCentered`: the `hasPattern` check (throw
`PatternNotFound`), then `getPattern`, `calculateCenterPosition` and
`placePattern` — no fit check. -/
def runApplyPatternCentered (m : PatternManager) (g : Grid) (name : String) :
    PMResult :=
  if m.hasPattern name = false then ⟨m, g, some .patternNotFound⟩
  else
    match m.getPattern name with
    | .error e => ⟨m, g, some e⟩
    | .ok p =>
      ⟨m, placePattern g p (calculateCenterPosition g p).1
        (calculateCenterPosition g p).2, none⟩

/-- `PatternManager::applyPattern`: `"random"` and `"clear"` short-circuit
before any registry access; otherwise the `hasPattern` check (throw
`PatternNotFound` — before any mutation), then `clearGrid` followed by
`applyPatternCentered`. -/
def runApplyPattern (rf : Grid → Float → Grid) (m : PatternManager) (g : Grid)
    (name : String) : PMResult :=
  if name = "random" then ⟨m, applyRandomPattern rf g defaultDensity, none⟩
  else if name = "clear" then ⟨m, clearGrid g, none⟩
  else if m.hasPattern name = false then ⟨m, g, some .patternNotFound⟩
  else runApplyPatternCentered m (clearGrid g) name

/-- `createGliderPattern`. -/
def gliderPattern : Pattern :=
  Pattern.make "glider" "Classic glider pattern that moves diagonally"
    [[false, true, false], [false, false, true], [true, true, true]]

/-- `createBeaconPattern`. -/
def beaconPattern : Pattern :=
  Pattern.make "beacon" "Oscillating beacon pattern with period 2"
    [[true, true, false, false], [true, true, false, false],
      [false, false, true, true], [false, false, true, true]]

/-- `createBlinkerPattern`. -/
def blinkerPattern : Pattern :=
  Pattern.make "blinker" "Simple oscillating pattern with period 2"
    [[true, true, true]]

/-- `createToadPattern`. -/
def toadPattern : Pattern :=
  Pattern.make "toad" "Oscillating toad pattern with period 2"
    [[false, true, true, true], [true, true, true, false]]

/-- `createTestPattern`: the 20×20 diagnostic pattern (corner markers,
center cross, border tick marks every 5 cells), written out row by row as
the loops in the source produce it. -/
def testPattern : Pattern :=
  Pattern.make "test" "Test pattern for coordinate verification"
    (mkCells 20 20 fun x y =>
      decide ((x = 0 ∨ x = 19) ∧ (y = 0 ∨ y = 19)) ||
      decide (y = 10 ∧ 8 ≤ x ∧ x ≤ 12) ||
      decide (x = 10 ∧ 8 ≤ y ∧ y ≤ 12) ||
      decide ((y = 0 ∨ y = 19) ∧ x % 5 = 0) ||
      decide ((x = 0 ∨ x = 19) ∧ y % 5 = 0))

/-- `PatternManager::PatternManager()` /
`initializeBuiltInPatterns()`: registers the five built-ins in source
order (`glider_gun` exists in the source but is not registered). -/
def defaultManager : PatternManager :=
  (((((⟨[]⟩ : PatternManager).registerPattern "glider" gliderPattern
    ).registerPattern "beacon" beaconPattern
    ).registerPattern "blinker" blinkerPattern
    ).registerPattern "toad" toadPattern
    ).registerPattern "test" testPattern

deriving instance DecidableEq for Except

/-- A registered pattern whose first row has `2^32 - 2` entries: its
cached `width` (an `unsigned int`) is `2^32 - 2`, one live mask cell at
the start of the row. -/
def wideRow : List Bool := true :: List.replicate 4294967293 false

/-- The oversized pattern of the C8 counterexample. -/
def widePattern : Pattern := Pattern.make "wide" "wider than any grid" [wideRow]

/-- A registry holding `widePattern` under the name `"wide"`. -/
def wideManager : PatternManager :=
  defaultManager.registerPattern "wide" widePattern

/-- A row of `2^31` cells with a single live cell at its start. -/
def int31Row : List Bool := true :: List.replicate 2147483647 false

/-- A `2^31 × 1` grid (the `Grid` constructor accepts any `unsigned int`
dimensions) with one live cell at `(0, 0)`: on it
`static_cast<int>(width)` is the negative value `-2^31`. -/
def int31Grid : Grid := ⟨2147483648, 1, [int31Row]⟩

/-- The horizontal phase of the blinker centered on a `w × h` grid:
a row of three live cells at height `(h-1)/2` starting at `(w-3)/2`. -/
def blinkH (w h a b : Nat) : Prop :=
  b = (h - 1) / 2 ∧ (w - 3) / 2 ≤ a ∧ a ≤ (w - 3) / 2 + 2

/-- The vertical phase of the blinker: a column of three live cells. -/
def blinkV (w h a b : Nat) : Prop :=
  a = (w - 3) / 2 + 1 ∧ (h - 1) / 2 - 1 ≤ b ∧ b ≤ (h - 1) / 2 + 1

instance (w h a b : Nat) : Decidable (blinkH w h a b) := by
  unfold blinkH; infer_instance

instance (w h a b : Nat) : Decidable (blinkV w h a b) := by
  unfold blinkV; infer_instance

/-! ## Theorems -/

theorem Grid.width_setCell (g : Grid) (x y : Nat) (a : Bool) :
    (g.setCell x y a).width = g.width := by
  unfold Grid.setCell; split <;> rfl

theorem Grid.height_setCell (g : Grid) (x y : Nat) (a : Bool) :
    (g.setCell x y a).height = g.height := by
  unfold Grid.setCell; split <;> rfl

theorem Grid.width_nextGeneration (g : Grid) :
    g.nextGeneration.width = g.width := rfl

theorem Grid.height_nextGeneration (g : Grid) :
    g.nextGeneration.height = g.height := rfl

theorem Grid.WF_make (w h : Nat) : (Grid.make w h).WF := by
  constructor
  · simp [Grid.make]
  · intro row hrow
    simp [Grid.make] at hrow ⊢
    simp [hrow.2]

theorem Grid.WF_clear (g : Grid) : g.clear.WF := by
  constructor
  · simp [Grid.clear]
  · intro row hrow
    simp [Grid.clear] at hrow ⊢
    simp [hrow.2]

theorem List.getD_mem_of_lt {α : Type} (l : List α) (d : α) (i : Nat)
    (h : i < l.length) : l.getD i d ∈ l := by
  rw [List.getD_eq_getElem l d h]
  exact List.getElem_mem h

theorem Grid.WF_setCell (g : Grid) (hg : g.WF) (x y : Nat) (a : Bool) :
    (g.setCell x y a).WF := by
  obtain ⟨hlen, hrow⟩ := hg
  by_cases hv : g.isValidPosition x y = true
  · have hy : y < g.height := by
      simp [Grid.isValidPosition] at hv
      exact hv.2
    have hy' : y < g.cells.length := by omega
    constructor
    · simp [Grid.setCell, hv, hlen]
    · intro row hmem
      rw [Grid.width_setCell]
      simp only [Grid.setCell, hv, if_true] at hmem
      rcases List.mem_or_eq_of_mem_set hmem with h | h
      · exact hrow row h
      · subst h
        simp only [List.length_set]
        exact hrow _ (List.getD_mem_of_lt g.cells [] y hy')
  · simp only [Grid.setCell, hv, if_false]
    exact ⟨hlen, hrow⟩

theorem List.getD_map_range {α : Type} (w : Nat) (f : Nat → α) (d : α) (x : Nat) :
    ((List.range w).map f).getD x d = if x < w then f x else d := by
  by_cases hx : x < w
  · rw [List.getD_eq_getElem _ _ (by simpa using hx)]
    simp [hx]
  · rw [List.getD_eq_default _ _ (by simpa using hx)]
    simp [hx]

theorem List.getD_replicate_ite {α : Type} (n : Nat) (a d : α) (i : Nat) :
    (List.replicate n a).getD i d = if i < n then a else d := by
  by_cases hi : i < n
  · rw [List.getD_eq_getElem _ _ (by simpa using hi), List.getElem_replicate]
    simp [hi]
  · rw [List.getD_eq_default _ _ (by simpa using hi)]
    simp [hi]

theorem List.getD_set_ite {α : Type} (l : List α) (i j : Nat) (a d : α) :
    (l.set i a).getD j d = if i = j ∧ j < l.length then a else l.getD j d := by
  by_cases hj : j < l.length
  · by_cases hij : i = j
    · subst hij
      rw [List.getD_eq_getElem _ _ (by simpa using hj),
        List.getElem_set_self (by simpa using hj)]
      simp [hj]
    · rw [List.getD_eq_getElem _ _ (by simpa using hj),
        List.getElem_set_of_ne hij _ (by simpa using hj),
        ← List.getD_eq_getElem l d hj]
      simp [hij]
  · rw [List.getD_eq_default _ _ (by simpa using hj),
      List.getD_eq_default _ _ (by omega)]
    simp [hj]

theorem Grid.cellAt_of_cells_eq_mkCells (g : Grid) (w h : Nat)
    (f : Nat → Nat → Bool) (hc : g.cells = mkCells w h f) (x y : Nat) :
    g.cellAt x y = if x < w ∧ y < h then f x y else false := by
  unfold Grid.cellAt
  rw [hc]
  unfold mkCells
  rw [List.getD_map_range]
  by_cases hy : y < h
  · simp only [hy, if_true]
    rw [List.getD_map_range]
    by_cases hx : x < w <;> simp [hx, hy]
  · simp [hy]

theorem Grid.cellAt_clear (g : Grid) (x y : Nat) : g.clear.cellAt x y = false := by
  unfold Grid.cellAt Grid.clear
  simp only
  rw [List.getD_replicate_ite]
  by_cases hy : y < g.height
  · simp only [hy, if_true]
    rw [List.getD_replicate_ite]
    by_cases hx : x < g.width <;> simp [hx]
  · simp [hy]

theorem Grid.cellAt_make (w h x y : Nat) : (Grid.make w h).cellAt x y = false := by
  have : Grid.make w h = (Grid.make w h).clear := by
    simp [Grid.make, Grid.clear]
  rw [this]
  exact Grid.cellAt_clear _ x y

/-- Effect of a single bounds-checked write on an arbitrary raw read
(needs the dimension invariant so that row `v` really exists). -/
theorem Grid.cellAt_setCell (g : Grid) (hg : g.WF) (u v : Nat) (a : Bool) (x y : Nat) :
    (g.setCell u v a).cellAt x y =
      if x = u ∧ y = v ∧ u < g.width ∧ v < g.height then a else g.cellAt x y := by
  obtain ⟨hlen, hrow⟩ := hg
  by_cases hvp : g.isValidPosition u v = true
  · have hb : u < g.width ∧ v < g.height := by
      simpa [Grid.isValidPosition] using hvp
    have hvlen : v < g.cells.length := by omega
    have hrowlen : (g.cells.getD v []).length = g.width :=
      hrow _ (List.getD_mem_of_lt g.cells [] v hvlen)
    simp only [Grid.setCell, hvp, if_true, Grid.cellAt]
    rw [List.getD_set_ite]
    by_cases h1 : v = y ∧ y < g.cells.length
    · rw [if_pos h1]
      obtain ⟨hvy, -⟩ := h1
      subst hvy
      rw [List.getD_set_ite, hrowlen]
      split_ifs <;> first | rfl | omega
    · rw [if_neg h1]
      split_ifs <;> first | rfl | omega
  · have hb : ¬(u < g.width ∧ v < g.height) := by
      simpa [Grid.isValidPosition] using hvp
    rw [Grid.setCell, if_neg hvp, if_neg (by tauto)]

/-- The raw read agrees with `getCell` in bounds; `getCell` is `false`
out of bounds. -/
theorem Grid.getCell_eq_cellAt (g : Grid) (x y : Nat)
    (hx : x < g.width) (hy : y < g.height) : g.getCell x y = g.cellAt x y := by
  simp [Grid.getCell, Grid.isValidPosition, hx, hy]

/-- The rule applied by `nextGeneration` at in-range `(x, y)`, stated
through the public accessor `getCell`. -/
theorem nextGeneration_getCell (g : Grid) (x y : Nat)
    (hx : x < g.width) (hy : y < g.height) :
    (g.nextGeneration.getCell x y = true ↔
      ((g.getCell x y = true ∧
          (g.countLiveNeighbors x y = 2 ∨ g.countLiveNeighbors x y = 3)) ∨
        (g.getCell x y = false ∧ g.countLiveNeighbors x y = 3))) := by
  have hx' : x < g.nextGeneration.width := by
    rw [Grid.width_nextGeneration]; exact hx
  have hy' : y < g.nextGeneration.height := by
    rw [Grid.height_nextGeneration]; exact hy
  rw [Grid.getCell_eq_cellAt _ _ _ hx' hy',
    Grid.cellAt_of_cells_eq_mkCells g.nextGeneration g.width g.height _ rfl,
    if_pos ⟨hx, hy⟩, Grid.getCell_eq_cellAt g x y hx hy]
  by_cases hc : g.cellAt x y = true
  · simp [hc]
  · simp only [Bool.not_eq_true] at hc
    simp [hc]

theorem toInt32_le_self (n : Nat) : toInt32 n ≤ (n : Int) := by
  unfold toInt32
  split_ifs <;> omega

theorem toInt32_eq_self {n : Nat} (h : n < 2147483648) : toInt32 n = (n : Int) := by
  unfold toInt32
  rw [if_pos (by omega), Nat.mod_eq_of_lt (by omega)]

/-- Below `2^31` the `static_cast<int>` conversions are value-preserving,
and a neighbor term is the cast-free guard on `(x+dx, y+dy)`. -/
theorem Grid.neighborTerm_small (g : Grid) (x y : Nat) (dx dy : Int)
    (hx : x < 2147483648) (hy : y < 2147483648)
    (hw : g.width < 2147483648) (hh : g.height < 2147483648) :
    g.neighborTerm x y dx dy =
      (if 0 ≤ (x : Int) + dx ∧ (x : Int) + dx < (g.width : Int) ∧
          0 ≤ (y : Int) + dy ∧ (y : Int) + dy < (g.height : Int) then
        (if g.cellAt ((x : Int) + dx).toNat ((y : Int) + dy).toNat then 1 else 0)
      else 0) := by
  unfold Grid.neighborTerm
  simp only [toInt32_eq_self hx, toInt32_eq_self hy, toInt32_eq_self hw,
    toInt32_eq_self hh]

theorem Grid.neighborTerm_eq_spec (g : Grid) (x y : Nat) (dx dy : Int)
    (hx : x < 2147483648) (hy : y < 2147483648)
    (hw : g.width < 2147483648) (hh : g.height < 2147483648) :
    g.neighborTerm x y dx dy =
      if 0 ≤ (x : Int) + dx ∧ 0 ≤ (y : Int) + dy ∧
          g.getCell ((x : Int) + dx).toNat ((y : Int) + dy).toNat then 1 else 0 := by
  rw [Grid.neighborTerm_small g x y dx dy hx hy hw hh]
  by_cases h1 : 0 ≤ (x : Int) + dx ∧ (x : Int) + dx < (g.width : Int) ∧
      0 ≤ (y : Int) + dy ∧ (y : Int) + dy < (g.height : Int)
  · rw [if_pos h1]
    have hv : g.getCell ((x : Int) + dx).toNat ((y : Int) + dy).toNat =
        g.cellAt ((x : Int) + dx).toNat ((y : Int) + dy).toNat :=
      Grid.getCell_eq_cellAt _ _ _ (by omega) (by omega)
    by_cases hc : g.cellAt ((x : Int) + dx).toNat ((y : Int) + dy).toNat = true
    · rw [if_pos hc, if_pos ⟨h1.1, h1.2.2.1, by rw [hv]; exact hc⟩]
    · simp only [Bool.not_eq_true] at hc
      rw [if_neg (by simp [hc]), if_neg (by simp [hv, hc])]
  · rw [if_neg h1]
    have : ¬(0 ≤ (x : Int) + dx ∧ 0 ≤ (y : Int) + dy ∧
        g.getCell ((x : Int) + dx).toNat ((y : Int) + dy).toNat = true) := by
      rintro ⟨ha, hb, hcell⟩
      have hv : g.isValidPosition ((x : Int) + dx).toNat ((y : Int) + dy).toNat
          = false := by
        simp only [Grid.isValidPosition, Bool.and_eq_false_iff, decide_eq_false_iff_not]
        omega
      simp [Grid.getCell, hv] at hcell
    rw [if_neg this]

theorem Grid.neighborTerm_le_one (g : Grid) (x y : Nat) (dx dy : Int) :
    g.neighborTerm x y dx dy ≤ 1 := by
  simp only [Grid.neighborTerm]
  split_ifs <;> omega

theorem Grid.neighborTerm_eq_zero_of_left (g : Grid) (x y : Nat) (dx dy : Int)
    (h : (x : Int) + dx < 0) : g.neighborTerm x y dx dy = 0 := by
  have hb := toInt32_le_self x
  unfold Grid.neighborTerm
  rw [if_neg (by rintro ⟨h1, -, -, -⟩; omega)]

theorem Grid.neighborTerm_eq_zero_of_right (g : Grid) (x y : Nat) (dx dy : Int)
    (hx : x < 2147483648) (hw : g.width < 2147483648)
    (h : (g.width : Int) ≤ (x : Int) + dx) : g.neighborTerm x y dx dy = 0 := by
  have ex := toInt32_eq_self hx
  have ew := toInt32_eq_self hw
  unfold Grid.neighborTerm
  rw [if_neg (by rintro ⟨-, h2, -, -⟩; omega)]

theorem Grid.neighborTerm_eq_zero_of_bottom (g : Grid) (x y : Nat) (dx dy : Int)
    (h : (y : Int) + dy < 0) : g.neighborTerm x y dx dy = 0 := by
  have hb := toInt32_le_self y
  unfold Grid.neighborTerm
  rw [if_neg (by rintro ⟨-, -, h3, -⟩; omega)]

theorem Grid.neighborTerm_eq_zero_of_top (g : Grid) (x y : Nat) (dx dy : Int)
    (hy : y < 2147483648) (hh : g.height < 2147483648)
    (h : (g.height : Int) ≤ (y : Int) + dy) : g.neighborTerm x y dx dy = 0 := by
  have ey := toInt32_eq_self hy
  have eh := toInt32_eq_self hh
  unfold Grid.neighborTerm
  rw [if_neg (by rintro ⟨-, -, -, h4⟩; omega)]

/-- C5 (amended): on a grid whose dimensions are both below `2^31` (so
the `static_cast<int>` conversions in `countLiveNeighbors` are
value-preserving) and at in-bounds `(x, y)`, `countLiveNeighbors` equals
the number of live cells among the 8 surrounding offsets with
out-of-bounds offsets contributing zero (no wraparound); the result is at
most 8, at most 3 for a corner cell, and at most 5 for an edge
(non-corner) cell.  On a grid with a dimension at or above `2^31` the
cast wraps to a negative `int`, every neighbor comparison fails and the
count is 0 — see the counterexample. -/
theorem countLiveNeighbors_spec :
    ∀ (g : Grid) (x y : Nat), g.width < 2147483648 → g.height < 2147483648 →
      x < g.width → y < g.height →
      (g.countLiveNeighbors x y = specNeighborCount g x y ∧
        g.countLiveNeighbors x y ≤ 8 ∧
        (((x = 0 ∨ x = g.width - 1) ∧ (y = 0 ∨ y = g.height - 1)) →
          g.countLiveNeighbors x y ≤ 3) ∧
        (((x = 0 ∨ x = g.width - 1 ∨ y = 0 ∨ y = g.height - 1) ∧
            ¬((x = 0 ∨ x = g.width - 1) ∧ (y = 0 ∨ y = g.height - 1))) →
          g.countLiveNeighbors x y ≤ 5)) := by
  intro g x y hw31 hh31 hx hy
  have hx31 : x < 2147483648 := by omega
  have hy31 : y < 2147483648 := by omega
  have t1 := g.neighborTerm_le_one x y (-1) (-1)
  have t2 := g.neighborTerm_le_one x y 0 (-1)
  have t3 := g.neighborTerm_le_one x y 1 (-1)
  have t4 := g.neighborTerm_le_one x y (-1) 0
  have t5 := g.neighborTerm_le_one x y 1 0
  have t6 := g.neighborTerm_le_one x y (-1) 1
  have t7 := g.neighborTerm_le_one x y 0 1
  have t8 := g.neighborTerm_le_one x y 1 1
  have s1 := g.neighborTerm_eq_spec x y (-1) (-1) hx31 hy31 hw31 hh31
  have s2 := g.neighborTerm_eq_spec x y 0 (-1) hx31 hy31 hw31 hh31
  have s3 := g.neighborTerm_eq_spec x y 1 (-1) hx31 hy31 hw31 hh31
  have s4 := g.neighborTerm_eq_spec x y (-1) 0 hx31 hy31 hw31 hh31
  have s5 := g.neighborTerm_eq_spec x y 1 0 hx31 hy31 hw31 hh31
  have s6 := g.neighborTerm_eq_spec x y (-1) 1 hx31 hy31 hw31 hh31
  have s7 := g.neighborTerm_eq_spec x y 0 1 hx31 hy31 hw31 hh31
  have s8 := g.neighborTerm_eq_spec x y 1 1 hx31 hy31 hw31 hh31
  refine ⟨?_, ?_, ?_, ?_⟩
  · unfold Grid.countLiveNeighbors specNeighborCount neighborOffsets
    simp only [List.map_cons, List.map_nil, List.sum_cons, List.sum_nil,
      s1, s2, s3, s4, s5, s6, s7, s8]
    omega
  · unfold Grid.countLiveNeighbors
    omega
  · rintro ⟨hcx, hcy⟩
    rcases hcx with hx0 | hx1 <;> rcases hcy with hy0 | hy1
    · have z1 := g.neighborTerm_eq_zero_of_left x y (-1) (-1) (by omega)
      have z2 := g.neighborTerm_eq_zero_of_bottom x y 0 (-1) (by omega)
      have z3 := g.neighborTerm_eq_zero_of_bottom x y 1 (-1) (by omega)
      have z4 := g.neighborTerm_eq_zero_of_left x y (-1) 0 (by omega)
      have z5 := g.neighborTerm_eq_zero_of_left x y (-1) 1 (by omega)
      unfold Grid.countLiveNeighbors
      omega
    · have z1 := g.neighborTerm_eq_zero_of_left x y (-1) (-1) (by omega)
      have z2 := g.neighborTerm_eq_zero_of_left x y (-1) 0 (by omega)
      have z3 := g.neighborTerm_eq_zero_of_left x y (-1) 1 (by omega)
      have z4 := g.neighborTerm_eq_zero_of_top x y 0 1 hy31 hh31 (by omega)
      have z5 := g.neighborTerm_eq_zero_of_top x y 1 1 hy31 hh31 (by omega)
      unfold Grid.countLiveNeighbors
      omega
    · have z1 := g.neighborTerm_eq_zero_of_right x y 1 (-1) hx31 hw31 (by omega)
      have z2 := g.neighborTerm_eq_zero_of_right x y 1 0 hx31 hw31 (by omega)
      have z3 := g.neighborTerm_eq_zero_of_right x y 1 1 hx31 hw31 (by omega)
      have z4 := g.neighborTerm_eq_zero_of_bottom x y (-1) (-1) (by omega)
      have z5 := g.neighborTerm_eq_zero_of_bottom x y 0 (-1) (by omega)
      unfold Grid.countLiveNeighbors
      omega
    · have z1 := g.neighborTerm_eq_zero_of_right x y 1 (-1) hx31 hw31 (by omega)
      have z2 := g.neighborTerm_eq_zero_of_right x y 1 0 hx31 hw31 (by omega)
      have z3 := g.neighborTerm_eq_zero_of_right x y 1 1 hx31 hw31 (by omega)
      have z4 := g.neighborTerm_eq_zero_of_top x y (-1) 1 hy31 hh31 (by omega)
      have z5 := g.neighborTerm_eq_zero_of_top x y 0 1 hy31 hh31 (by omega)
      unfold Grid.countLiveNeighbors
      omega
  · rintro ⟨hb, -⟩
    rcases hb with h0 | h0 | h0 | h0
    · have z1 := g.neighborTerm_eq_zero_of_left x y (-1) (-1) (by omega)
      have z2 := g.neighborTerm_eq_zero_of_left x y (-1) 0 (by omega)
      have z3 := g.neighborTerm_eq_zero_of_left x y (-1) 1 (by omega)
      unfold Grid.countLiveNeighbors
      omega
    · have z1 := g.neighborTerm_eq_zero_of_right x y 1 (-1) hx31 hw31 (by omega)
      have z2 := g.neighborTerm_eq_zero_of_right x y 1 0 hx31 hw31 (by omega)
      have z3 := g.neighborTerm_eq_zero_of_right x y 1 1 hx31 hw31 (by omega)
      unfold Grid.countLiveNeighbors
      omega
    · have z1 := g.neighborTerm_eq_zero_of_bottom x y (-1) (-1) (by omega)
      have z2 := g.neighborTerm_eq_zero_of_bottom x y 0 (-1) (by omega)
      have z3 := g.neighborTerm_eq_zero_of_bottom x y 1 (-1) (by omega)
      unfold Grid.countLiveNeighbors
      omega
    · have z1 := g.neighborTerm_eq_zero_of_top x y (-1) 1 hy31 hh31 (by omega)
      have z2 := g.neighborTerm_eq_zero_of_top x y 0 1 hy31 hh31 (by omega)
      have z3 := g.neighborTerm_eq_zero_of_top x y 1 1 hy31 hh31 (by omega)
      unfold Grid.countLiveNeighbors
      omega

/-- Witness for `countLiveNeighbors_spec` at the corner `(0, 0)` of the
3×3 grid whose center is alive. -/
theorem countLiveNeighbors_spec_witness :
    (centerGrid.width < 2147483648 ∧ centerGrid.height < 2147483648 ∧
      0 < centerGrid.width ∧ 0 < centerGrid.height) ∧
      (centerGrid.countLiveNeighbors 0 0 = specNeighborCount centerGrid 0 0 ∧
        centerGrid.countLiveNeighbors 0 0 ≤ 8 ∧
        (((0 = 0 ∨ 0 = centerGrid.width - 1) ∧
            (0 = 0 ∨ 0 = centerGrid.height - 1)) →
          centerGrid.countLiveNeighbors 0 0 ≤ 3) ∧
        (((0 = 0 ∨ 0 = centerGrid.width - 1 ∨ 0 = 0 ∨ 0 = centerGrid.height - 1) ∧
            ¬((0 = 0 ∨ 0 = centerGrid.width - 1) ∧
              (0 = 0 ∨ 0 = centerGrid.height - 1))) →
          centerGrid.countLiveNeighbors 0 0 ≤ 5)) :=
  ⟨⟨by decide, by decide, by decide, by decide⟩,
    countLiveNeighbors_spec centerGrid 0 0 (by decide) (by decide) (by decide)
      (by decide)⟩

/-- C5 counterexample: on the `2^31 × 1` grid with one live cell at
`(0, 0)`, the code's `countLiveNeighbors(1, 0)` is 0 — the bound
`nx < static_cast<int>(width)` compares against the negative wrapped
width and rejects every neighbor — while the spec's 8-offset count sees
the live left neighbor and is 1. -/
theorem countLiveNeighbors_cast_counterexample :
    int31Grid.WF ∧ 1 < int31Grid.width ∧ 0 < int31Grid.height ∧
      int31Grid.countLiveNeighbors 1 0 = 0 ∧
      specNeighborCount int31Grid 1 0 = 1 := by
  refine ⟨⟨rfl, ?_⟩, by decide, by decide, by decide, by decide⟩
  intro row hrow
  rw [show int31Grid.cells = [int31Row] from rfl, List.mem_singleton] at hrow
  subst hrow
  rw [int31Row, List.length_cons, List.length_replicate]
  rfl

/-- C1: `nextGeneration` replaces the matrix so that the new cell at
`(x, y)` is alive iff the old cell was alive with exactly 2 or 3 live
neighbors (per `countLiveNeighbors` on the old matrix), or dead with
exactly 3; all counts are taken on the pre-update generation-N state
(the embedding builds the whole new matrix from `g`, so this is
snapshot-and-swap by construction); and a 3×3 grid with only the center
alive becomes entirely dead after one `nextGeneration`. -/
theorem nextGeneration_conway_rule :
    (∀ (g : Grid) (x y : Nat), x < g.width → y < g.height →
      (g.nextGeneration.getCell x y = true ↔
        ((g.getCell x y = true ∧
            (g.countLiveNeighbors x y = 2 ∨ g.countLiveNeighbors x y = 3)) ∨
          (g.getCell x y = false ∧ g.countLiveNeighbors x y = 3)))) ∧
    centerGrid.nextGeneration = Grid.make 3 3 :=
  ⟨nextGeneration_getCell, by decide⟩

/-- Witness for `nextGeneration_conway_rule` at the center of the 3×3
single-live-cell grid. -/
theorem nextGeneration_conway_rule_witness :
    (1 < centerGrid.width ∧ 1 < centerGrid.height) ∧
      (centerGrid.nextGeneration.getCell 1 1 = true ↔
        ((centerGrid.getCell 1 1 = true ∧
            (centerGrid.countLiveNeighbors 1 1 = 2 ∨
              centerGrid.countLiveNeighbors 1 1 = 3)) ∨
          (centerGrid.getCell 1 1 = false ∧
            centerGrid.countLiveNeighbors 1 1 = 3))) :=
  ⟨by decide, nextGeneration_conway_rule.1 centerGrid 1 1 (by decide) (by decide)⟩

/-- C6: with an out-of-bounds coordinate (`x ≥ width` or `y ≥ height`;
negative C++ arguments reach these functions already converted to huge
unsigned values, hence also out of bounds), `getCell` returns `false`,
while `setCell` and `toggleCell` return the grid completely unchanged.
All three are total functions in the embedding — no error is raised. -/
theorem outOfBounds_cell_ops_safe :
    ∀ (g : Grid) (x y : Nat) (a : Bool), g.width ≤ x ∨ g.height ≤ y →
      g.getCell x y = false ∧ g.setCell x y a = g ∧ g.toggleCell x y = g := by
  intro g x y a h
  have hv : g.isValidPosition x y = false := by
    simp only [Grid.isValidPosition, Bool.and_eq_false_iff, decide_eq_false_iff_not]
    omega
  refine ⟨?_, ?_, ?_⟩ <;>
    simp [Grid.getCell, Grid.setCell, Grid.toggleCell, hv]

/-- Witness for `outOfBounds_cell_ops_safe`: the coordinate `(5, 1)` on a
3×3 grid. -/
theorem outOfBounds_cell_ops_safe_witness :
    (centerGrid.width ≤ 5 ∨ centerGrid.height ≤ 1) ∧
      (centerGrid.getCell 5 1 = false ∧ centerGrid.setCell 5 1 true = centerGrid ∧
        centerGrid.toggleCell 5 1 = centerGrid) :=
  ⟨by decide, outOfBounds_cell_ops_safe centerGrid 5 1 true (by decide)⟩

/-- C2 counterexample: re-registering the existing name `"glider"` with a
different pattern does NOT overwrite the stored entry — `std::map::insert`
keeps the original, so `getPattern` still returns the old pattern, not the
newly registered one. -/
theorem registerPattern_overwrite_counterexample :
    (defaultManager.registerPattern "glider" blinkerPattern).getPattern "glider"
        = .ok gliderPattern ∧
      gliderPattern ≠ blinkerPattern := by
  constructor
  · decide
  · decide

/-- C2 (amended): `std::map::insert` / `emplace` never overwrite — when
the name is already registered the registry is left completely unchanged
(first write wins, silently), and only registration under a fresh name
stores the given pattern. -/
theorem registerPattern_first_write_wins :
    ∀ (m : PatternManager) (name : String) (p : Pattern),
      ((m.find? name).isSome = true → m.registerPattern name p = m) ∧
      ((m.find? name).isSome = false →
        (m.registerPattern name p).getPattern name = .ok p) := by
  intro m name p
  constructor
  · intro h
    simp [PatternManager.registerPattern, h]
  · intro h
    have hnone : m.patterns.find? (fun e => e.1 = name) = none := by
      rcases hf : m.patterns.find? (fun e => e.1 = name) with _ | q
      · exact hf
      · rw [PatternManager.find?, hf] at h
        simp at h
    rw [PatternManager.registerPattern, if_neg (by rw [h]; simp)]
    rw [PatternManager.getPattern, PatternManager.find?]
    simp only [List.find?_append, hnone, Option.none_or]
    simp [List.find?_cons]

/-- Witness for `registerPattern_first_write_wins`: both branches at
concrete registries. -/
theorem registerPattern_first_write_wins_witness :
    ((defaultManager.find? "glider").isSome = true ∧
      defaultManager.registerPattern "glider" blinkerPattern = defaultManager) ∧
    ((defaultManager.find? "spinner").isSome = false ∧
      (defaultManager.registerPattern "spinner" blinkerPattern).getPattern "spinner"
        = .ok blinkerPattern) :=
  ⟨⟨by decide,
      (registerPattern_first_write_wins defaultManager "glider" blinkerPattern).1
        (by decide)⟩,
    ⟨by decide,
      (registerPattern_first_write_wins defaultManager "spinner" blinkerPattern).2
        (by decide)⟩⟩

/-- C10: whenever `applyPattern` or `applyPatternAt` raises, the grid and
the registry are exactly as before the call (every throw in the source
happens before any mutation), and `getPattern` — a `const` query that
touches no state at all — raises exactly when the name is absent. -/
theorem pattern_errors_are_atomic :
    ∀ (rf : Grid → Float → Grid) (m : PatternManager) (g : Grid) (name : String)
      (startX startY : Nat),
      ((runApplyPattern rf m g name).err.isSome = true →
        (runApplyPattern rf m g name).grid = g ∧
          (runApplyPattern rf m g name).manager = m) ∧
      ((runApplyPatternAt m g name startX startY).err.isSome = true →
        (runApplyPatternAt m g name startX startY).grid = g ∧
          (runApplyPatternAt m g name startX startY).manager = m) ∧
      (∀ e, m.getPattern name = .error e → m.hasPattern name = false) := by
  intro rf m g name startX startY
  refine ⟨?_, ?_, ?_⟩
  · unfold runApplyPattern
    split_ifs with h1 h2 h3
    · simp
    · simp
    · exact fun _ => ⟨rfl, rfl⟩
    · unfold runApplyPatternCentered
      rw [if_neg (by simpa using h3)]
      rcases hf : m.find? name with _ | p
      · exfalso
        simp [PatternManager.hasPattern, hf] at h3
      · simp [PatternManager.getPattern, hf]
  · unfold runApplyPatternAt
    by_cases h1 : m.hasPattern name = false
    · rw [if_pos h1]
      exact fun _ => ⟨rfl, rfl⟩
    · rw [if_neg h1]
      rcases hf : m.find? name with _ | p
      · exfalso
        simp [PatternManager.hasPattern, hf] at h1
      · simp only [PatternManager.getPattern, hf]
        by_cases h2 : canFitPattern g p startX startY = false
        · rw [if_pos h2]
          exact fun _ => ⟨rfl, rfl⟩
        · rw [if_neg h2]
          simp
  · intro e he
    rw [PatternManager.getPattern] at he
    rw [PatternManager.hasPattern]
    rcases hf : m.find? name with _ | p
    · simp [hf]
    · rw [hf] at he
      simp at he

/-- Witness for `pattern_errors_are_atomic`: an unregistered name raises
and leaves the state untouched. -/
theorem pattern_errors_are_atomic_witness :
    ((runApplyPatternAt defaultManager centerGrid "nope" 0 0).err.isSome = true) ∧
      ((runApplyPatternAt defaultManager centerGrid "nope" 0 0).grid = centerGrid ∧
        (runApplyPatternAt defaultManager centerGrid "nope" 0 0).manager
          = defaultManager) :=
  ⟨by decide,
    (pattern_errors_are_atomic (fun g _ => g) defaultManager centerGrid "nope" 0 0).2.1
      (by decide)⟩

/-- C3 counterexample: with `startX = 2^32 - 1` on a 5×5 grid, the
mathematical sum `startX + blinker.width = 2^32 + 2` exceeds the grid
width, so the claim requires `PatternDoesNotFit` — but the C++ sum wraps
to `2 ≤ 5`, the fit check passes and `applyPatternAt` succeeds (placing
the wrapped cells). -/
theorem applyPatternAt_fit_wrap_counterexample :
    (runApplyPatternAt defaultManager (Grid.make 5 5) "blinker" 4294967295 0).err
        = none ∧
      (Grid.make 5 5).width < 4294967295 + blinkerPattern.width ∧
      defaultManager.find? "blinker" = some blinkerPattern := by
  refine ⟨by decide, by decide, by decide⟩

/-- C3 (amended): `applyPatternAt` raises `PatternNotFound` iff the name
is unregistered; otherwise it raises `PatternDoesNotFit` iff
`(startX + pattern.width) mod 2^32 > grid.width` or
`(startY + pattern.height) mod 2^32 > grid.height` (the C++ sums are
`unsigned int` and wrap); otherwise it succeeds and places the pattern.
No other failure is possible. -/
theorem applyPatternAt_error_conditions :
    ∀ (m : PatternManager) (g : Grid) (name : String) (startX startY : Nat),
      ((runApplyPatternAt m g name startX startY).err = some .patternNotFound ↔
        m.find? name = none) ∧
      (∀ p, m.find? name = some p →
        ((runApplyPatternAt m g name startX startY).err = some .patternDoesNotFit ↔
          (g.width < uadd startX p.width ∨ g.height < uadd startY p.height))) ∧
      (∀ p, m.find? name = some p → uadd startX p.width ≤ g.width →
        uadd startY p.height ≤ g.height →
        runApplyPatternAt m g name startX startY
          = ⟨m, placePattern g p startX startY, none⟩) := by
  intro m g name startX startY
  rcases hf : m.find? name with _ | p
  · have hrun : runApplyPatternAt m g name startX startY
        = ⟨m, g, some .patternNotFound⟩ := by
      rw [runApplyPatternAt, if_pos (by rw [PatternManager.hasPattern, hf]; rfl)]
    refine ⟨by rw [hrun]; simp, ?_, ?_⟩
    · intro p hp
      simp at hp
    · intro p hp _ _
      simp at hp
  · have hhas : ¬(m.hasPattern name = false) := by
      rw [PatternManager.hasPattern, hf]
      simp
    by_cases hfit : canFitPattern g p startX startY = false
    · have hrun : runApplyPatternAt m g name startX startY
          = ⟨m, g, some .patternDoesNotFit⟩ := by
        rw [runApplyPatternAt, if_neg hhas, PatternManager.getPattern, hf]
        exact if_pos hfit
      have hnot : ¬(uadd startX p.width ≤ g.width ∧
          uadd startY p.height ≤ g.height) := by
        rintro ⟨h1, h2⟩
        rw [canFitPattern] at hfit
        simp [h1, h2] at hfit
      refine ⟨by rw [hrun]; simp, ?_, ?_⟩
      · intro q hq
        injection hq with hq'
        subst hq'
        rw [hrun]
        constructor
        · intro _
          omega
        · intro _
          rfl
      · intro q hq hle1 hle2
        injection hq with hq'
        subst hq'
        exact absurd (And.intro hle1 hle2) hnot
    · rw [Bool.not_eq_false] at hfit
      have hles : uadd startX p.width ≤ g.width ∧ uadd startY p.height ≤ g.height := by
        simpa [canFitPattern] using hfit
      have hrun : runApplyPatternAt m g name startX startY
          = ⟨m, placePattern g p startX startY, none⟩ := by
        rw [runApplyPatternAt, if_neg hhas, PatternManager.getPattern, hf]
        exact if_neg (by simp [hfit])
      refine ⟨by rw [hrun]; simp, ?_, ?_⟩
      · intro q hq
        injection hq with hq'
        subst hq'
        rw [hrun]
        constructor
        · intro h
          exact absurd h (by simp)
        · intro h
          exfalso
          omega
      · intro q hq _ _
        injection hq with hq'
        subst hq'
        exact hrun

/-- Witness for `applyPatternAt_error_conditions`: the blinker placed at
`(1, 0)` on a 5×5 grid. -/
theorem applyPatternAt_error_conditions_witness :
    defaultManager.find? "blinker" = some blinkerPattern ∧
      uadd 1 blinkerPattern.width ≤ (Grid.make 5 5).width ∧
      uadd 0 blinkerPattern.height ≤ (Grid.make 5 5).height ∧
      runApplyPatternAt defaultManager (Grid.make 5 5) "blinker" 1 0
        = ⟨defaultManager, placePattern (Grid.make 5 5) blinkerPattern 1 0, none⟩ :=
  ⟨by decide, by decide, by decide,
    (applyPatternAt_error_conditions defaultManager (Grid.make 5 5) "blinker" 1 0).2.2
      blinkerPattern (by decide) (by decide) (by decide)⟩

/-- C7: `applyPattern` on `"random"` delegates to the random fill at the
default density 0.3 and on `"clear"` clears the grid, both without
consulting the registry (the registry is universally quantified and
untouched); any other unregistered name raises `PatternNotFound`; any
other registered name clears the grid and then additively places the
pattern at `calculateCenterPosition`, i.e. at
`((width - pattern.width) / 2, (height - pattern.height) / 2)` with
integer floor division whenever the subtractions do not underflow. -/
theorem applyPattern_dispatch :
    ∀ (rf : Grid → Float → Grid) (m : PatternManager) (g : Grid) (name : String),
      runApplyPattern rf m g "random"
          = ⟨m, applyRandomPattern rf g defaultDensity, none⟩ ∧
      runApplyPattern rf m g "clear" = ⟨m, clearGrid g, none⟩ ∧
      (name ≠ "random" → name ≠ "clear" → m.find? name = none →
        runApplyPattern rf m g name = ⟨m, g, some .patternNotFound⟩) ∧
      (∀ p, name ≠ "random" → name ≠ "clear" → m.find? name = some p →
        runApplyPattern rf m g name
          = ⟨m, placePattern (clearGrid g) p
                (calculateCenterPosition (clearGrid g) p).1
                (calculateCenterPosition (clearGrid g) p).2, none⟩) ∧
      (∀ p : Pattern, p.width ≤ g.width → p.height ≤ g.height →
        g.width < U32MOD → g.height < U32MOD →
        calculateCenterPosition g p
          = ((g.width - p.width) / 2, (g.height - p.height) / 2)) := by
  intro rf m g name
  refine ⟨by rw [runApplyPattern, if_pos rfl], ?_, ?_, ?_, ?_⟩
  · rw [runApplyPattern, if_neg (by decide), if_pos rfl]
  · intro h1 h2 hf
    rw [runApplyPattern, if_neg h1, if_neg h2,
      if_pos (by rw [PatternManager.hasPattern, hf]; rfl)]
  · intro p h1 h2 hf
    rw [runApplyPattern, if_neg h1, if_neg h2,
      if_neg (by rw [PatternManager.hasPattern, hf]; simp)]
    rw [runApplyPatternCentered,
      if_neg (by rw [PatternManager.hasPattern, hf]; simp)]
    rw [PatternManager.getPattern, hf]
  · intro p hpw hph hgw hgh
    rw [calculateCenterPosition, Prod.mk.injEq]
    unfold usub U32MOD
    unfold U32MOD at hgw hgh
    constructor <;> · congr 1; omega

/-- Witness for `applyPattern_dispatch`: the toad pattern centered on a
6×6 grid. -/
theorem applyPattern_dispatch_witness :
    ("toad" ≠ "random" ∧ "toad" ≠ "clear" ∧
      defaultManager.find? "toad" = some toadPattern) ∧
      runApplyPattern (fun g _ => g) defaultManager (Grid.make 6 6) "toad"
        = ⟨defaultManager, placePattern (clearGrid (Grid.make 6 6)) toadPattern
            (calculateCenterPosition (clearGrid (Grid.make 6 6)) toadPattern).1
            (calculateCenterPosition (clearGrid (Grid.make 6 6)) toadPattern).2,
            none⟩ ∧
      (toadPattern.width ≤ (Grid.make 6 6).width ∧
        toadPattern.height ≤ (Grid.make 6 6).height ∧
        calculateCenterPosition (Grid.make 6 6) toadPattern
          = (((Grid.make 6 6).width - toadPattern.width) / 2,
              ((Grid.make 6 6).height - toadPattern.height) / 2)) :=
  ⟨⟨by decide, by decide, by decide⟩,
    (applyPattern_dispatch (fun g _ => g) defaultManager (Grid.make 6 6) "toad").2.2.2.1
      toadPattern (by decide) (by decide) (by decide),
    ⟨by decide, by decide,
      (applyPattern_dispatch (fun g _ => g) defaultManager (Grid.make 6 6) "toad").2.2.2.2
        toadPattern (by decide) (by decide) (by decide) (by decide)⟩⟩

theorem foldl_grid_width {α : Type} (f : Grid → α → Grid)
    (hf : ∀ g a, (f g a).width = g.width) :
    ∀ (l : List α) (g : Grid), (l.foldl f g).width = g.width := by
  intro l
  induction l with
  | nil => intro g; rfl
  | cons x xs ih =>
    intro g
    rw [List.foldl_cons, ih, hf]

theorem foldl_grid_height {α : Type} (f : Grid → α → Grid)
    (hf : ∀ g a, (f g a).height = g.height) :
    ∀ (l : List α) (g : Grid), (l.foldl f g).height = g.height := by
  intro l
  induction l with
  | nil => intro g; rfl
  | cons x xs ih =>
    intro g
    rw [List.foldl_cons, ih, hf]

theorem foldl_grid_WF {α : Type} (f : Grid → α → Grid)
    (hf : ∀ g a, g.WF → (f g a).WF) :
    ∀ (l : List α) (g : Grid), g.WF → (l.foldl f g).WF := by
  intro l
  induction l with
  | nil => intro g hg; exact hg
  | cons x xs ih =>
    intro g hg
    rw [List.foldl_cons]
    exact ih _ (hf g x hg)

theorem width_placePattern (g : Grid) (p : Pattern) (startX startY : Nat) :
    (placePattern g p startX startY).width = g.width := by
  rw [placePattern]
  refine foldl_grid_width _ ?_ _ g
  intro g1 y
  refine foldl_grid_width _ ?_ _ g1
  intro g2 x
  split
  · exact Grid.width_setCell g2 _ _ _
  · rfl

theorem height_placePattern (g : Grid) (p : Pattern) (startX startY : Nat) :
    (placePattern g p startX startY).height = g.height := by
  rw [placePattern]
  refine foldl_grid_height _ ?_ _ g
  intro g1 y
  refine foldl_grid_height _ ?_ _ g1
  intro g2 x
  split
  · exact Grid.height_setCell g2 _ _ _
  · rfl

theorem WF_placePattern (g : Grid) (hg : g.WF) (p : Pattern) (startX startY : Nat) :
    (placePattern g p startX startY).WF := by
  rw [placePattern]
  refine foldl_grid_WF _ ?_ _ g hg
  intro g1 y hg1
  refine foldl_grid_WF _ ?_ _ g1 hg1
  intro g2 x hg2
  split
  · exact Grid.WF_setCell g2 hg2 _ _ _
  · exact hg2

/-- Effect of one row-loop of `placePattern` on a raw read. -/
theorem cellAt_placeRow (p : Pattern) (startX startY y : Nat) :
    ∀ (l : List Nat) (g : Grid), g.WF → ∀ a b,
      ((l.foldl
          (fun g2 x =>
            if p.maskAt x y then g2.setCell (uadd startX x) (uadd startY y) true
            else g2) g).cellAt a b)
        = (g.cellAt a b ||
            l.any fun x => p.maskAt x y &&
              decide (a = uadd startX x ∧ b = uadd startY y ∧
                a < g.width ∧ b < g.height)) := by
  intro l
  induction l with
  | nil =>
    intro g hg a b
    simp
  | cons x xs ih =>
    intro g hg a b
    rw [List.foldl_cons, List.any_cons]
    by_cases hm : p.maskAt x y = true
    · rw [if_pos hm, ih _ (Grid.WF_setCell g hg _ _ _) a b,
        Grid.cellAt_setCell g hg _ _ _ a b,
        Grid.width_setCell, Grid.height_setCell]
      by_cases hC : a = uadd startX x ∧ b = uadd startY y ∧
          uadd startX x < g.width ∧ uadd startY y < g.height
      · rw [if_pos hC]
        have hh : (p.maskAt x y &&
            decide (a = uadd startX x ∧ b = uadd startY y ∧
              a < g.width ∧ b < g.height)) = true := by
          rw [hm, Bool.true_and, decide_eq_true_eq]
          obtain ⟨h1, h2, h3, h4⟩ := hC
          exact ⟨h1, h2, by omega, by omega⟩
        rw [hh]
        simp
      · rw [if_neg hC]
        have hh : (p.maskAt x y &&
            decide (a = uadd startX x ∧ b = uadd startY y ∧
              a < g.width ∧ b < g.height)) = false := by
          rw [hm, Bool.true_and, decide_eq_false_iff_not]
          rintro ⟨h1, h2, h3, h4⟩
          exact hC ⟨h1, h2, by omega, by omega⟩
        rw [hh, Bool.false_or]
    · simp only [Bool.not_eq_true] at hm
      rw [if_neg (by simp [hm]), ih g hg a b, hm]
      simp

/-- Full characterization of `placePattern` on a raw read: a cell is
alive afterwards iff it was alive before, or some live mask cell targets
exactly that (in-bounds) position. -/
theorem cellAt_placePattern (p : Pattern) (startX startY : Nat) :
    ∀ (g : Grid), g.WF → ∀ a b,
      (placePattern g p startX startY).cellAt a b
        = (g.cellAt a b ||
            (List.range p.height).any fun y =>
              (List.range p.width).any fun x =>
                p.maskAt x y &&
                  decide (a = uadd startX x ∧ b = uadd startY y ∧
                    a < g.width ∧ b < g.height)) := by
  suffices H : ∀ (l : List Nat) (g : Grid), g.WF → ∀ a b,
      ((l.foldl
          (fun g1 y =>
            (List.range p.width).foldl
              (fun g2 x =>
                if p.maskAt x y then g2.setCell (uadd startX x) (uadd startY y) true
                else g2) g1) g).cellAt a b)
        = (g.cellAt a b ||
            l.any fun y =>
              (List.range p.width).any fun x =>
                p.maskAt x y &&
                  decide (a = uadd startX x ∧ b = uadd startY y ∧
                    a < g.width ∧ b < g.height)) by
    intro g hg a b
    rw [placePattern]
    exact H (List.range p.height) g hg a b
  intro l
  induction l with
  | nil =>
    intro g hg a b
    simp
  | cons y ys ih =>
    intro g hg a b
    rw [List.foldl_cons, List.any_cons]
    have hWFrow : ∀ (g1 : Grid), g1.WF →
        ((List.range p.width).foldl
          (fun g2 x =>
            if p.maskAt x y then g2.setCell (uadd startX x) (uadd startY y) true
            else g2) g1).WF := by
      intro g1 hg1
      refine foldl_grid_WF _ ?_ _ g1 hg1
      intro g2 x hg2
      split
      · exact Grid.WF_setCell g2 hg2 _ _ _
      · exact hg2
    have hwrow : ∀ (g1 : Grid),
        ((List.range p.width).foldl
          (fun g2 x =>
            if p.maskAt x y then g2.setCell (uadd startX x) (uadd startY y) true
            else g2) g1).width = g1.width := by
      intro g1
      refine foldl_grid_width _ ?_ _ g1
      intro g2 x
      split
      · exact Grid.width_setCell g2 _ _ _
      · rfl
    have hhrow : ∀ (g1 : Grid),
        ((List.range p.width).foldl
          (fun g2 x =>
            if p.maskAt x y then g2.setCell (uadd startX x) (uadd startY y) true
            else g2) g1).height = g1.height := by
      intro g1
      refine foldl_grid_height _ ?_ _ g1
      intro g2 x
      split
      · exact Grid.height_setCell g2 _ _ _
      · rfl
    rw [ih _ (hWFrow g hg) a b, hwrow, hhrow,
      cellAt_placeRow p startX startY y (List.range p.width) g hg a b,
      Bool.or_assoc]

/-- Reduction of `runApplyPatternAt` once the lookup has succeeded. -/
theorem runApplyPatternAt_eq_of_found (m : PatternManager) (g : Grid)
    (name : String) (startX startY : Nat) (p : Pattern)
    (hf : m.find? name = some p) :
    runApplyPatternAt m g name startX startY
      = if canFitPattern g p startX startY = false then ⟨m, g, some .patternDoesNotFit⟩
        else ⟨m, placePattern g p startX startY, none⟩ := by
  rw [runApplyPatternAt, if_neg (by rw [PatternManager.hasPattern, hf]; simp),
    PatternManager.getPattern, hf]

/-- C4 counterexample: with `startX = 2^32 - 1` on a 5×5 grid the
`applyPatternAt` call succeeds (the unsigned fit check wraps — see the
C3 counterexample), and the `unsigned int` sums `startX + x` inside
`placePattern` wrap as well: cell `(0, 0)` flips from dead to alive even
though it is not `(startX + px, startY + py)` for any mask position —
every such mathematical sum has `startX + px ≥ 2^32 - 1 > 0` (last
conjunct) — so it lies in the region the claim's frame clause says is
preserved. -/
theorem applyPatternAt_frame_counterexample :
    (runApplyPatternAt defaultManager (Grid.make 5 5) "blinker" 4294967295 0).err
        = none ∧
      (Grid.make 5 5).getCell 0 0 = false ∧
      (runApplyPatternAt defaultManager (Grid.make 5 5) "blinker"
          4294967295 0).grid.getCell 0 0 = true ∧
      ∀ px : Nat, 0 < 4294967295 + px :=
  ⟨by decide, by decide, by decide, fun px => by omega⟩

/-- C4 (amended): when `applyPatternAt` succeeds, every in-bounds grid
cell at the wrapped offsets `((startX + px) mod 2^32, (startY + py) mod 2^32)`
of a live mask cell becomes alive (the sums in `placePattern` are
`unsigned int` and wrap), and every cell that is not such a wrapped
target — dead-mask positions and everything outside the wrapped target
set — keeps exactly its previous state (additive placement, no
clearing). -/
theorem applyPatternAt_additive_placement :
    ∀ (m : PatternManager) (g : Grid) (name : String) (startX startY : Nat)
      (p : Pattern), g.WF → m.find? name = some p →
      (runApplyPatternAt m g name startX startY).err = none →
      ((∀ px py, px < p.width → py < p.height → p.maskAt px py = true →
          uadd startX px < g.width → uadd startY py < g.height →
          (runApplyPatternAt m g name startX startY).grid.getCell
            (uadd startX px) (uadd startY py) = true) ∧
        (∀ a b,
          (∀ px py, px < p.width → py < p.height → p.maskAt px py = true →
            ¬(a = uadd startX px ∧ b = uadd startY py)) →
          (runApplyPatternAt m g name startX startY).grid.getCell a b
            = g.getCell a b)) := by
  intro m g name startX startY p hWF hf herr
  have hrun := runApplyPatternAt_eq_of_found m g name startX startY p hf
  by_cases hfit : canFitPattern g p startX startY = false
  · rw [hrun, if_pos hfit] at herr
    simp at herr
  · rw [if_neg hfit] at hrun
    have hgrid : (runApplyPatternAt m g name startX startY).grid
        = placePattern g p startX startY := by
      rw [hrun]
    have hw : (placePattern g p startX startY).width = g.width :=
      width_placePattern g p startX startY
    have hh : (placePattern g p startX startY).height = g.height :=
      height_placePattern g p startX startY
    constructor
    · intro px py hpx hpy hm hbx hby
      rw [hgrid, Grid.getCell_eq_cellAt _ _ _ (by omega) (by omega),
        cellAt_placePattern p startX startY g hWF]
      have hany : ((List.range p.height).any fun y =>
          (List.range p.width).any fun x =>
            p.maskAt x y &&
              decide (uadd startX px = uadd startX x ∧
                uadd startY py = uadd startY y ∧
                uadd startX px < g.width ∧ uadd startY py < g.height)) = true := by
        rw [List.any_eq_true]
        refine ⟨py, List.mem_range.mpr hpy, ?_⟩
        rw [List.any_eq_true]
        refine ⟨px, List.mem_range.mpr hpx, ?_⟩
        rw [hm, Bool.true_and, decide_eq_true_eq]
        exact ⟨rfl, rfl, hbx, hby⟩
      rw [hany, Bool.or_true]
    · intro a b hmiss
      have hany : ((List.range p.height).any fun y =>
          (List.range p.width).any fun x =>
            p.maskAt x y &&
              decide (a = uadd startX x ∧ b = uadd startY y ∧
                a < g.width ∧ b < g.height)) = false := by
        rw [List.any_eq_false]
        intro y hy
        simp only [Bool.not_eq_true]
        rw [List.any_eq_false]
        intro x hx
        simp only [Bool.not_eq_true]
        by_cases hm : p.maskAt x y = true
        · rw [hm, Bool.true_and, decide_eq_false_iff_not]
          rintro ⟨h1, h2, h3, h4⟩
          exact hmiss x y (List.mem_range.mp hx) (List.mem_range.mp hy) hm ⟨h1, h2⟩
        · simp only [Bool.not_eq_true] at hm
          rw [hm, Bool.false_and]
      by_cases hab : a < g.width ∧ b < g.height
      · rw [hgrid, Grid.getCell_eq_cellAt _ _ _ (by omega) (by omega),
          cellAt_placePattern p startX startY g hWF, hany, Bool.or_false,
          Grid.getCell_eq_cellAt g a b hab.1 hab.2]
      · have hv1 : (placePattern g p startX startY).isValidPosition a b = false := by
          rw [Grid.isValidPosition, hw, hh]
          simp only [Bool.and_eq_false_iff, decide_eq_false_iff_not]
          omega
        have hv2 : g.isValidPosition a b = false := by
          rw [Grid.isValidPosition]
          simp only [Bool.and_eq_false_iff, decide_eq_false_iff_not]
          omega
        rw [hgrid, Grid.getCell, hv1, Grid.getCell, hv2]
        rfl

/-- Witness for `applyPatternAt_additive_placement`: the blinker placed at
`(1, 1)` on a 4×4 grid whose corner `(0, 0)` is already alive. -/
theorem applyPatternAt_additive_placement_witness :
    (((Grid.make 4 4).setCell 0 0 true).WF ∧
      defaultManager.find? "blinker" = some blinkerPattern ∧
      (runApplyPatternAt defaultManager ((Grid.make 4 4).setCell 0 0 true)
        "blinker" 1 1).err = none) ∧
      ((∀ px py, px < blinkerPattern.width → py < blinkerPattern.height →
          blinkerPattern.maskAt px py = true →
          uadd 1 px < ((Grid.make 4 4).setCell 0 0 true).width →
          uadd 1 py < ((Grid.make 4 4).setCell 0 0 true).height →
          (runApplyPatternAt defaultManager ((Grid.make 4 4).setCell 0 0 true)
            "blinker" 1 1).grid.getCell (uadd 1 px) (uadd 1 py) = true) ∧
        (∀ a b,
          (∀ px py, px < blinkerPattern.width → py < blinkerPattern.height →
            blinkerPattern.maskAt px py = true →
            ¬(a = uadd 1 px ∧ b = uadd 1 py)) →
          (runApplyPatternAt defaultManager ((Grid.make 4 4).setCell 0 0 true)
            "blinker" 1 1).grid.getCell a b
            = ((Grid.make 4 4).setCell 0 0 true).getCell a b)) :=
  ⟨⟨by decide, by decide, by decide⟩,
    applyPatternAt_additive_placement defaultManager
      ((Grid.make 4 4).setCell 0 0 true) "blinker" 1 1 blinkerPattern
      (by decide) (by decide) (by decide)⟩

theorem List.foldl_fixed_of_mem {α β : Type} (f : β → α → β) (b : β) :
    ∀ (l : List α), (∀ a ∈ l, f b a = b) → l.foldl f b = b := by
  intro l
  induction l with
  | nil => intro _; rfl
  | cons x xs ih =>
    intro h
    rw [List.foldl_cons, h x (List.mem_cons_self x xs)]
    exact ih fun a ha => h a (List.mem_cons_of_mem x ha)

/-- When every write the mask would issue targets an invalid position,
`placePattern` is the identity. -/
theorem placePattern_eq_self (g : Grid) (p : Pattern) (startX startY : Nat)
    (h : ∀ px py, px < p.width → py < p.height →
      g.isValidPosition (uadd startX px) (uadd startY py) = false) :
    placePattern g p startX startY = g := by
  rw [placePattern]
  refine List.foldl_fixed_of_mem _ _ _ ?_
  intro y hy
  refine List.foldl_fixed_of_mem _ _ _ ?_
  intro x hx
  by_cases hm : p.maskAt x y = true
  · rw [if_pos hm, Grid.setCell,
      if_neg (by rw [h x y (List.mem_range.mp hx) (List.mem_range.mp hy)]; simp)]
  · rw [if_neg (by simpa using hm)]

/-- Reduction of `runApplyPatternCentered` once the lookup has succeeded. -/
theorem runApplyPatternCentered_eq_of_found (m : PatternManager) (g : Grid)
    (name : String) (p : Pattern) (hf : m.find? name = some p) :
    runApplyPatternCentered m g name
      = ⟨m, placePattern g p (calculateCenterPosition g p).1
          (calculateCenterPosition g p).2, none⟩ := by
  rw [runApplyPatternCentered, if_neg (by rw [PatternManager.hasPattern, hf]; simp),
    PatternManager.getPattern, hf]

theorem wideRow_length : wideRow.length = 4294967294 := by
  rw [wideRow, List.length_cons, List.length_replicate]

theorem widePattern_width : widePattern.width = 4294967294 := by
  simp only [widePattern, Pattern.make]
  rw [show ([wideRow] : List (List Bool)).length = 1 from rfl]
  rw [show ([wideRow] : List (List Bool)).getD 0 [] = wideRow from rfl]
  rw [wideRow_length]
  norm_num [U32MOD]

theorem widePattern_height : widePattern.height = 1 := by
  simp only [widePattern, Pattern.make]
  rw [show ([wideRow] : List (List Bool)).length = 1 from rfl]
  norm_num [U32MOD]

theorem wideManager_find : wideManager.find? "wide" = some widePattern := by
  have hnone : defaultManager.find? "wide" = none := by decide
  have hm : wideManager
      = ⟨defaultManager.patterns ++ [("wide", widePattern)]⟩ := by
    rw [wideManager, PatternManager.registerPattern, if_neg (by rw [hnone]; simp)]
  have hnone' : defaultManager.patterns.find? (fun e => e.1 = "wide") = none := by
    have := hnone
    rw [PatternManager.find?] at this
    exact Option.map_eq_none.mp this
  rw [hm, PatternManager.find?]
  simp only [List.find?_append, hnone', Option.none_or]
  simp [List.find?_cons]

theorem wide_center :
    calculateCenterPosition (Grid.make 10 10) widePattern = (6, 4) := by
  rw [calculateCenterPosition, widePattern_width, widePattern_height]
  decide

theorem placePattern_wide_hits :
    (placePattern (Grid.make 10 10) widePattern 6 4).getCell 6 4 = true := by
  have hWF : (Grid.make 10 10).WF := by decide
  have hw : (placePattern (Grid.make 10 10) widePattern 6 4).width
      = (Grid.make 10 10).width := width_placePattern _ _ _ _
  have hh : (placePattern (Grid.make 10 10) widePattern 6 4).height
      = (Grid.make 10 10).height := height_placePattern _ _ _ _
  rw [Grid.getCell_eq_cellAt _ _ _ (by rw [hw]; decide) (by rw [hh]; decide),
    cellAt_placePattern widePattern 6 4 (Grid.make 10 10) hWF 6 4,
    Grid.cellAt_make, Bool.false_or, List.any_eq_true]
  refine ⟨0, List.mem_range.mpr (by rw [widePattern_height]; norm_num), ?_⟩
  rw [List.any_eq_true]
  refine ⟨0, List.mem_range.mpr (by rw [widePattern_width]; norm_num), ?_⟩
  rw [show widePattern.maskAt 0 0 = true from rfl, Bool.true_and,
    decide_eq_true_eq]
  refine ⟨by decide, by decide, by decide, by decide⟩

/-- C8 counterexample: for the registered pattern of width `2^32 - 2` on
a 10×10 grid, the unsigned subtraction wraps back to the SMALL offset
`(10 - (2^32 - 2)) mod 2^32 / 2 = 6`, not a huge one, and the placement
writes a live cell into the valid position `(6, 4)` — the grid is NOT
left unchanged (no `PatternDoesNotFit` is raised either way). -/
theorem applyPatternCentered_underflow_counterexample :
    wideManager.find? "wide" = some widePattern ∧
      (Grid.make 10 10).width < widePattern.width ∧
      (runApplyPatternCentered wideManager (Grid.make 10 10) "wide").grid.getCell
          6 4 = true ∧
      (Grid.make 10 10).getCell 6 4 = false := by
  refine ⟨wideManager_find, ?_, ?_, by decide⟩
  · rw [widePattern_width]
    decide
  · rw [runApplyPatternCentered_eq_of_found wideManager (Grid.make 10 10) "wide"
      widePattern wideManager_find]
    have hc1 : (calculateCenterPosition (Grid.make 10 10) widePattern).1 = 6 := by
      rw [wide_center]
    have hc2 : (calculateCenterPosition (Grid.make 10 10) widePattern).2 = 4 := by
      rw [wide_center]
    dsimp only
    rw [hc1, hc2]
    exact placePattern_wide_hits

/-- C8 (amended): for a registered oversized pattern, `applyPatternCentered`
never raises `PatternDoesNotFit` (it performs no fit check; a registered
name cannot raise at all), and — provided the dimensions are in the
ordinary range (`grid` dimensions below `2^30`, pattern dimensions at most
`2^31`) — the offset produced by the wrapped unsigned subtraction is so
large that every bounds-checked `setCell` misses the grid and the grid is
returned unchanged.  (Without the range proviso the offset can wrap back
into range: see the counterexample.) -/
theorem applyPatternCentered_underflow_noop :
    ∀ (m : PatternManager) (g : Grid) (name : String) (p : Pattern),
      m.find? name = some p →
      g.width < 1073741824 → g.height < 1073741824 →
      p.width ≤ 2147483648 → p.height ≤ 2147483648 →
      (g.width < p.width ∨ g.height < p.height) →
      runApplyPatternCentered m g name = ⟨m, g, none⟩ := by
  intro m g name p hf hgw hgh hpw hph hover
  rw [runApplyPatternCentered_eq_of_found m g name p hf]
  have hplace : placePattern g p (calculateCenterPosition g p).1
      (calculateCenterPosition g p).2 = g := by
    refine placePattern_eq_self g p _ _ ?_
    intro px py hpx hpy
    rw [Grid.isValidPosition]
    simp only [Bool.and_eq_false_iff, decide_eq_false_iff_not]
    rw [calculateCenterPosition] at *
    simp only at *
    unfold uadd usub U32MOD at *
    omega
  rw [hplace]

/-- Witness for `applyPatternCentered_underflow_noop`: the 3×1 blinker on
a 2×2 grid. -/
theorem applyPatternCentered_underflow_noop_witness :
    (defaultManager.find? "blinker" = some blinkerPattern ∧
      (Grid.make 2 2).width < 1073741824 ∧ (Grid.make 2 2).height < 1073741824 ∧
      blinkerPattern.width ≤ 2147483648 ∧ blinkerPattern.height ≤ 2147483648 ∧
      ((Grid.make 2 2).width < blinkerPattern.width ∨
        (Grid.make 2 2).height < blinkerPattern.height)) ∧
      runApplyPatternCentered defaultManager (Grid.make 2 2) "blinker"
        = ⟨defaultManager, Grid.make 2 2, none⟩ :=
  ⟨⟨by decide, by decide, by decide, by decide, by decide, by decide⟩,
    applyPatternCentered_underflow_noop defaultManager (Grid.make 2 2) "blinker"
      blinkerPattern (by decide) (by decide) (by decide) (by decide) (by decide)
      (by decide)⟩

theorem Grid.WF_nextGeneration (g : Grid) : g.nextGeneration.WF := by
  constructor
  · simp [Grid.nextGeneration, mkCells]
  · intro row hrow
    simp only [Grid.nextGeneration, mkCells, List.mem_map, List.mem_range] at hrow
    obtain ⟨y, -, hrow⟩ := hrow
    rw [← hrow]
    simp [Grid.nextGeneration]

theorem Grid.eq_of_fields {g g' : Grid} (h1 : g.width = g'.width)
    (h2 : g.height = g'.height) (h3 : g.cells = g'.cells) : g = g' := by
  cases g
  cases g'
  simp_all

/-- Two well-formed grids of equal dimensions and equal raw reads have
equal cell matrices. -/
theorem Grid.cells_ext {g g' : Grid} (hg : g.WF) (hg' : g'.WF)
    (hw : g.width = g'.width) (hh : g.height = g'.height)
    (hcell : ∀ a b, g.cellAt a b = g'.cellAt a b) : g.cells = g'.cells := by
  obtain ⟨hl, hr⟩ := hg
  obtain ⟨hl', hr'⟩ := hg'
  apply List.ext_getElem (by omega)
  intro y hy1 hy2
  apply List.ext_getElem
  · rw [hr _ (List.getElem_mem hy1), hr' _ (List.getElem_mem hy2), hw]
  · intro x hx1 hx2
    have e1 : g.cellAt x y = g.cells[y][x] := by
      rw [Grid.cellAt, List.getD_eq_getElem g.cells [] hy1,
        List.getD_eq_getElem _ false hx1]
    have e2 : g'.cellAt x y = g'.cells[y][x] := by
      rw [Grid.cellAt, List.getD_eq_getElem g'.cells [] hy2,
        List.getD_eq_getElem _ false hx2]
    rw [← e1, ← e2, hcell]

/-- One neighbor term of a grid with dimensions below `2^31` (so the
`static_cast<int>` bounds are value-preserving) whose raw reads are
characterized by a decidable predicate `P`. -/
theorem Grid.neighborTerm_char (g : Grid) (P : Nat → Nat → Prop)
    [∀ a b, Decidable (P a b)]
    (hchar : ∀ a b, g.cellAt a b = decide (P a b)) (x y : Nat) (dx dy : Int)
    (hx : x < 2147483648) (hy : y < 2147483648)
    (hw : g.width < 2147483648) (hh : g.height < 2147483648) :
    g.neighborTerm x y dx dy =
      if 0 ≤ (x : Int) + dx ∧ (x : Int) + dx < (g.width : Int) ∧
          0 ≤ (y : Int) + dy ∧ (y : Int) + dy < (g.height : Int) ∧
          P ((x : Int) + dx).toNat ((y : Int) + dy).toNat
      then 1 else 0 := by
  rw [Grid.neighborTerm_small g x y dx dy hx hy hw hh]
  rw [hchar]
  by_cases h1 : 0 ≤ (x : Int) + dx ∧ (x : Int) + dx < (g.width : Int) ∧
      0 ≤ (y : Int) + dy ∧ (y : Int) + dy < (g.height : Int)
  · rw [if_pos h1]
    by_cases h2 : P ((x : Int) + dx).toNat ((y : Int) + dy).toNat
    · rw [if_pos (by simp [h2]), if_pos ⟨h1.1, h1.2.1, h1.2.2.1, h1.2.2.2, h2⟩]
    · rw [if_neg (by simp [h2]),
        if_neg (by rintro ⟨-, -, -, -, hP⟩; exact h2 hP)]
  · rw [if_neg h1, if_neg (by rintro ⟨a1, a2, a3, a4, -⟩; exact h1 ⟨a1, a2, a3, a4⟩)]

theorem ite_one_zero_cases {C : Prop} [Decidable C] {n : Nat}
    (h : n = if C then 1 else 0) : (C ∧ n = 1) ∨ (¬C ∧ n = 0) := by
  by_cases hc : C
  · exact Or.inl ⟨hc, by rw [h, if_pos hc]⟩
  · exact Or.inr ⟨hc, by rw [h, if_neg hc]⟩

/-- State of the grid right after `applyPattern` places the blinker:
exactly the horizontal three-cell row `blinkH`. -/
theorem blinker_start_cellAt (g : Grid) (hw3 : 3 ≤ g.width)
    (hwM : g.width < U32MOD) (hh3 : 3 ≤ g.height) (hhM : g.height < U32MOD) :
    ∀ a b,
      (placePattern g.clear blinkerPattern
        (calculateCenterPosition g.clear blinkerPattern).1
        (calculateCenterPosition g.clear blinkerPattern).2).cellAt a b
        = decide (blinkH g.width g.height a b) := by
  have hbw : blinkerPattern.width = 3 := by decide
  have hbh : blinkerPattern.height = 1 := by decide
  have hcw : g.clear.width = g.width := rfl
  have hch : g.clear.height = g.height := rfl
  have hc1 : (calculateCenterPosition g.clear blinkerPattern).1
      = (g.width - 3) / 2 := by
    rw [calculateCenterPosition]
    dsimp only
    rw [hbw, hcw]
    unfold usub U32MOD
    unfold U32MOD at hwM
    omega
  have hc2 : (calculateCenterPosition g.clear blinkerPattern).2
      = (g.height - 1) / 2 := by
    rw [calculateCenterPosition]
    dsimp only
    rw [hbh, hch]
    unfold usub U32MOD
    unfold U32MOD at hhM
    omega
  intro a b
  rw [hc1, hc2,
    cellAt_placePattern blinkerPattern _ _ g.clear (Grid.WF_clear g) a b,
    Grid.cellAt_clear, Bool.false_or, hbw, hbh, hcw, hch,
    show List.range 1 = [0] from rfl, show List.range 3 = [0, 1, 2] from rfl]
  simp only [List.any_cons, List.any_nil]
  rw [show blinkerPattern.maskAt 0 0 = true from rfl,
    show blinkerPattern.maskAt 1 0 = true from rfl,
    show blinkerPattern.maskAt 2 0 = true from rfl]
  simp only [Bool.true_and, Bool.or_false]
  have hu0 : uadd ((g.width - 3) / 2) 0 = (g.width - 3) / 2 := by
    unfold uadd U32MOD
    unfold U32MOD at hwM
    omega
  have hu1 : uadd ((g.width - 3) / 2) 1 = (g.width - 3) / 2 + 1 := by
    unfold uadd U32MOD
    unfold U32MOD at hwM
    omega
  have hu2 : uadd ((g.width - 3) / 2) 2 = (g.width - 3) / 2 + 2 := by
    unfold uadd U32MOD
    unfold U32MOD at hwM
    omega
  have hv0 : uadd ((g.height - 1) / 2) 0 = (g.height - 1) / 2 := by
    unfold uadd U32MOD
    unfold U32MOD at hhM
    omega
  rw [hu0, hu1, hu2, hv0, Bool.eq_iff_iff]
  simp only [Bool.or_eq_true, decide_eq_true_eq]
  unfold blinkH
  omega

theorem term_cases_equiv {C Cn : Prop} {n : Nat}
    (d : (C ∧ n = 1) ∨ (¬C ∧ n = 0)) (h1 : C → Cn) (h2 : Cn → C) :
    (Cn ∧ n = 1) ∨ (¬Cn ∧ n = 0) := by
  rcases d with ⟨hc, ht⟩ | ⟨hc, ht⟩
  · exact Or.inl ⟨h1 hc, ht⟩
  · exact Or.inr ⟨fun hcn => hc (h2 hcn), ht⟩

set_option maxHeartbeats 1000000

theorem term_resolve {C D : Prop} {t : Nat}
    (f : (C ∧ t = 1) ∨ (¬C ∧ t = 0)) (hextract : C → D) (hn : ¬D) :
    t = 0 := by
  rcases f with ⟨hc, ht⟩ | ⟨-, ht⟩
  · exact absurd (hextract hc) hn
  · exact ht

theorem ite_decide_eq_decide {P Q R S : Prop} [Decidable P] [Decidable Q]
    [Decidable R] [Decidable S] (h : ((P ∧ Q) ∨ (¬P ∧ R)) ↔ S) :
    (if decide P = true then decide Q else decide R) = decide S := by
  by_cases hp : P
  · rw [if_pos (by simp [hp]), decide_eq_decide]
    constructor
    · intro hq
      exact h.mp (Or.inl ⟨hp, hq⟩)
    · intro hs
      rcases h.mpr hs with ⟨-, hq⟩ | ⟨hnp, -⟩
      · exact hq
      · exact absurd hp hnp
  · rw [if_neg (by simp [hp]), decide_eq_decide]
    constructor
    · intro hr
      exact h.mp (Or.inr ⟨hp, hr⟩)
    · intro hs
      rcases h.mpr hs with ⟨hp2, -⟩ | ⟨-, hr⟩
      · exact absurd hp2 hp
      · exact hr

theorem yneqA1 {b sy : Nat} (h : b + 1 = sy) : ¬(b = sy + 1) := by omega

theorem yneqA2 {b sy : Nat} (h : b + 1 = sy) : ¬(b = sy) := by omega

theorem yneqB1 {b sy : Nat} (h : b = sy) : ¬(b = sy + 1) := by omega

theorem yneqB2 {b sy : Nat} (h : b = sy) : ¬(b + 1 = sy) := by omega

theorem yneqC1 {b sy : Nat} (h : b = sy + 1) : ¬(b = sy) := by omega

theorem yneqC2 {b sy : Nat} (h : b = sy + 1) : ¬(b + 1 = sy) := by omega

theorem xneq01 {a s : Nat} (h : a = s) : ¬(a = s + 1) := by omega

theorem xneq02 {a s : Nat} (h : a = s) : ¬(a = s + 2) := by omega

theorem xneq10 {a s : Nat} (h : a = s + 1) : ¬(a = s) := by omega

theorem xneq12 {a s : Nat} (h : a = s + 1) : ¬(a = s + 2) := by omega

theorem xneq20 {a s : Nat} (h : a = s + 2) : ¬(a = s) := by omega

theorem xneq21 {a s : Nat} (h : a = s + 2) : ¬(a = s + 1) := by omega

theorem convH1 {w h sx sy a b : Nat} :
    (0 ≤ (a : Int) + (-1) ∧ (a : Int) + (-1) < (w : Int) ∧ 0 ≤ (b : Int) + (-1) ∧ (b : Int) + (-1) < (h : Int) ∧ (((b : Int) + (-1)).toNat = sy ∧ sx ≤ ((a : Int) + (-1)).toNat ∧ ((a : Int) + (-1)).toNat ≤ sx + 2))
    ↔ (1 ≤ a ∧ a ≤ w ∧ 1 ≤ b ∧ b ≤ h ∧ b = sy + 1 ∧ sx + 1 ≤ a ∧ a ≤ sx + 3) := by
  omega

theorem convH2 {w h sx sy a b : Nat} :
    (0 ≤ (a : Int) + 0 ∧ (a : Int) + 0 < (w : Int) ∧ 0 ≤ (b : Int) + (-1) ∧ (b : Int) + (-1) < (h : Int) ∧ (((b : Int) + (-1)).toNat = sy ∧ sx ≤ ((a : Int) + 0).toNat ∧ ((a : Int) + 0).toNat ≤ sx + 2))
    ↔ (a < w ∧ 1 ≤ b ∧ b ≤ h ∧ b = sy + 1 ∧ sx ≤ a ∧ a ≤ sx + 2) := by
  omega

theorem convH3 {w h sx sy a b : Nat} :
    (0 ≤ (a : Int) + 1 ∧ (a : Int) + 1 < (w : Int) ∧ 0 ≤ (b : Int) + (-1) ∧ (b : Int) + (-1) < (h : Int) ∧ (((b : Int) + (-1)).toNat = sy ∧ sx ≤ ((a : Int) + 1).toNat ∧ ((a : Int) + 1).toNat ≤ sx + 2))
    ↔ (a + 1 < w ∧ 1 ≤ b ∧ b ≤ h ∧ b = sy + 1 ∧ sx ≤ a + 1 ∧ a + 1 ≤ sx + 2) := by
  omega

theorem convH4 {w h sx sy a b : Nat} :
    (0 ≤ (a : Int) + (-1) ∧ (a : Int) + (-1) < (w : Int) ∧ 0 ≤ (b : Int) + 0 ∧ (b : Int) + 0 < (h : Int) ∧ (((b : Int) + 0).toNat = sy ∧ sx ≤ ((a : Int) + (-1)).toNat ∧ ((a : Int) + (-1)).toNat ≤ sx + 2))
    ↔ (1 ≤ a ∧ a ≤ w ∧ b < h ∧ b = sy ∧ sx + 1 ≤ a ∧ a ≤ sx + 3) := by
  omega

theorem convH5 {w h sx sy a b : Nat} :
    (0 ≤ (a : Int) + 1 ∧ (a : Int) + 1 < (w : Int) ∧ 0 ≤ (b : Int) + 0 ∧ (b : Int) + 0 < (h : Int) ∧ (((b : Int) + 0).toNat = sy ∧ sx ≤ ((a : Int) + 1).toNat ∧ ((a : Int) + 1).toNat ≤ sx + 2))
    ↔ (a + 1 < w ∧ b < h ∧ b = sy ∧ sx ≤ a + 1 ∧ a + 1 ≤ sx + 2) := by
  omega

theorem convH6 {w h sx sy a b : Nat} :
    (0 ≤ (a : Int) + (-1) ∧ (a : Int) + (-1) < (w : Int) ∧ 0 ≤ (b : Int) + 1 ∧ (b : Int) + 1 < (h : Int) ∧ (((b : Int) + 1).toNat = sy ∧ sx ≤ ((a : Int) + (-1)).toNat ∧ ((a : Int) + (-1)).toNat ≤ sx + 2))
    ↔ (1 ≤ a ∧ a ≤ w ∧ b + 1 < h ∧ b + 1 = sy ∧ sx + 1 ≤ a ∧ a ≤ sx + 3) := by
  omega

theorem convH7 {w h sx sy a b : Nat} :
    (0 ≤ (a : Int) + 0 ∧ (a : Int) + 0 < (w : Int) ∧ 0 ≤ (b : Int) + 1 ∧ (b : Int) + 1 < (h : Int) ∧ (((b : Int) + 1).toNat = sy ∧ sx ≤ ((a : Int) + 0).toNat ∧ ((a : Int) + 0).toNat ≤ sx + 2))
    ↔ (a < w ∧ b + 1 < h ∧ b + 1 = sy ∧ sx ≤ a ∧ a ≤ sx + 2) := by
  omega

theorem convH8 {w h sx sy a b : Nat} :
    (0 ≤ (a : Int) + 1 ∧ (a : Int) + 1 < (w : Int) ∧ 0 ≤ (b : Int) + 1 ∧ (b : Int) + 1 < (h : Int) ∧ (((b : Int) + 1).toNat = sy ∧ sx ≤ ((a : Int) + 1).toNat ∧ ((a : Int) + 1).toNat ≤ sx + 2))
    ↔ (a + 1 < w ∧ b + 1 < h ∧ b + 1 = sy ∧ sx ≤ a + 1 ∧ a + 1 ≤ sx + 2) := by
  omega

theorem convV1 {w h sx sy a b : Nat} :
    (0 ≤ (a : Int) + (-1) ∧ (a : Int) + (-1) < (w : Int) ∧ 0 ≤ (b : Int) + (-1) ∧ (b : Int) + (-1) < (h : Int) ∧ (((a : Int) + (-1)).toNat = sx + 1 ∧ sy - 1 ≤ ((b : Int) + (-1)).toNat ∧ ((b : Int) + (-1)).toNat ≤ sy + 1))
    ↔ (1 ≤ a ∧ a ≤ w ∧ 1 ≤ b ∧ b ≤ h ∧ a = sx + 2 ∧ sy ≤ b ∧ b ≤ sy + 2) := by
  omega

theorem convV2 {w h sx sy a b : Nat} :
    (0 ≤ (a : Int) + 0 ∧ (a : Int) + 0 < (w : Int) ∧ 0 ≤ (b : Int) + (-1) ∧ (b : Int) + (-1) < (h : Int) ∧ (((a : Int) + 0).toNat = sx + 1 ∧ sy - 1 ≤ ((b : Int) + (-1)).toNat ∧ ((b : Int) + (-1)).toNat ≤ sy + 1))
    ↔ (a < w ∧ 1 ≤ b ∧ b ≤ h ∧ a = sx + 1 ∧ sy ≤ b ∧ b ≤ sy + 2) := by
  omega

theorem convV3 {w h sx sy a b : Nat} :
    (0 ≤ (a : Int) + 1 ∧ (a : Int) + 1 < (w : Int) ∧ 0 ≤ (b : Int) + (-1) ∧ (b : Int) + (-1) < (h : Int) ∧ (((a : Int) + 1).toNat = sx + 1 ∧ sy - 1 ≤ ((b : Int) + (-1)).toNat ∧ ((b : Int) + (-1)).toNat ≤ sy + 1))
    ↔ (a + 1 < w ∧ 1 ≤ b ∧ b ≤ h ∧ a = sx ∧ sy ≤ b ∧ b ≤ sy + 2) := by
  omega

theorem convV4 {w h sx sy a b : Nat} :
    (0 ≤ (a : Int) + (-1) ∧ (a : Int) + (-1) < (w : Int) ∧ 0 ≤ (b : Int) + 0 ∧ (b : Int) + 0 < (h : Int) ∧ (((a : Int) + (-1)).toNat = sx + 1 ∧ sy - 1 ≤ ((b : Int) + 0).toNat ∧ ((b : Int) + 0).toNat ≤ sy + 1))
    ↔ (1 ≤ a ∧ a ≤ w ∧ b < h ∧ a = sx + 2 ∧ sy ≤ b + 1 ∧ b ≤ sy + 1) := by
  omega

theorem convV5 {w h sx sy a b : Nat} :
    (0 ≤ (a : Int) + 1 ∧ (a : Int) + 1 < (w : Int) ∧ 0 ≤ (b : Int) + 0 ∧ (b : Int) + 0 < (h : Int) ∧ (((a : Int) + 1).toNat = sx + 1 ∧ sy - 1 ≤ ((b : Int) + 0).toNat ∧ ((b : Int) + 0).toNat ≤ sy + 1))
    ↔ (a + 1 < w ∧ b < h ∧ a = sx ∧ sy ≤ b + 1 ∧ b ≤ sy + 1) := by
  omega

theorem convV6 {w h sx sy a b : Nat} :
    (0 ≤ (a : Int) + (-1) ∧ (a : Int) + (-1) < (w : Int) ∧ 0 ≤ (b : Int) + 1 ∧ (b : Int) + 1 < (h : Int) ∧ (((a : Int) + (-1)).toNat = sx + 1 ∧ sy - 1 ≤ ((b : Int) + 1).toNat ∧ ((b : Int) + 1).toNat ≤ sy + 1))
    ↔ (1 ≤ a ∧ a ≤ w ∧ b + 1 < h ∧ a = sx + 2 ∧ sy ≤ b + 2 ∧ b + 1 ≤ sy + 1) := by
  omega

theorem convV7 {w h sx sy a b : Nat} :
    (0 ≤ (a : Int) + 0 ∧ (a : Int) + 0 < (w : Int) ∧ 0 ≤ (b : Int) + 1 ∧ (b : Int) + 1 < (h : Int) ∧ (((a : Int) + 0).toNat = sx + 1 ∧ sy - 1 ≤ ((b : Int) + 1).toNat ∧ ((b : Int) + 1).toNat ≤ sy + 1))
    ↔ (a < w ∧ b + 1 < h ∧ a = sx + 1 ∧ sy ≤ b + 2 ∧ b + 1 ≤ sy + 1) := by
  omega

theorem convV8 {w h sx sy a b : Nat} :
    (0 ≤ (a : Int) + 1 ∧ (a : Int) + 1 < (w : Int) ∧ 0 ≤ (b : Int) + 1 ∧ (b : Int) + 1 < (h : Int) ∧ (((a : Int) + 1).toNat = sx + 1 ∧ sy - 1 ≤ ((b : Int) + 1).toNat ∧ ((b : Int) + 1).toNat ≤ sy + 1))
    ↔ (a + 1 < w ∧ b + 1 < h ∧ a = sx ∧ sy ≤ b + 2 ∧ b + 1 ≤ sy + 1) := by
  omega

/-- Neighbor-count bookkeeping for the horizontal blinker phase: the
next state of an in-bounds cell is exactly the vertical phase. -/
theorem blinker_count_H (w h sx sy a b t1 t2 t3 t4 t5 t6 t7 t8 : Nat)
    (hsxb : 2 * sx + 3 ≤ w ∧ w ≤ 2 * sx + 4)
    (hsyb : 2 * sy + 1 ≤ h ∧ h ≤ 2 * sy + 2 ∧ 1 ≤ sy)
    (hin : a < w ∧ b < h)
    (f1 : ((1 ≤ a ∧ a ≤ w ∧ 1 ≤ b ∧ b ≤ h ∧ b = sy + 1 ∧ sx + 1 ≤ a ∧ a ≤ sx + 3) ∧ t1 = 1) ∨ (¬(1 ≤ a ∧ a ≤ w ∧ 1 ≤ b ∧ b ≤ h ∧ b = sy + 1 ∧ sx + 1 ≤ a ∧ a ≤ sx + 3) ∧ t1 = 0))
    (f2 : ((a < w ∧ 1 ≤ b ∧ b ≤ h ∧ b = sy + 1 ∧ sx ≤ a ∧ a ≤ sx + 2) ∧ t2 = 1) ∨ (¬(a < w ∧ 1 ≤ b ∧ b ≤ h ∧ b = sy + 1 ∧ sx ≤ a ∧ a ≤ sx + 2) ∧ t2 = 0))
    (f3 : ((a + 1 < w ∧ 1 ≤ b ∧ b ≤ h ∧ b = sy + 1 ∧ sx ≤ a + 1 ∧ a + 1 ≤ sx + 2) ∧ t3 = 1) ∨ (¬(a + 1 < w ∧ 1 ≤ b ∧ b ≤ h ∧ b = sy + 1 ∧ sx ≤ a + 1 ∧ a + 1 ≤ sx + 2) ∧ t3 = 0))
    (f4 : ((1 ≤ a ∧ a ≤ w ∧ b < h ∧ b = sy ∧ sx + 1 ≤ a ∧ a ≤ sx + 3) ∧ t4 = 1) ∨ (¬(1 ≤ a ∧ a ≤ w ∧ b < h ∧ b = sy ∧ sx + 1 ≤ a ∧ a ≤ sx + 3) ∧ t4 = 0))
    (f5 : ((a + 1 < w ∧ b < h ∧ b = sy ∧ sx ≤ a + 1 ∧ a + 1 ≤ sx + 2) ∧ t5 = 1) ∨ (¬(a + 1 < w ∧ b < h ∧ b = sy ∧ sx ≤ a + 1 ∧ a + 1 ≤ sx + 2) ∧ t5 = 0))
    (f6 : ((1 ≤ a ∧ a ≤ w ∧ b + 1 < h ∧ b + 1 = sy ∧ sx + 1 ≤ a ∧ a ≤ sx + 3) ∧ t6 = 1) ∨ (¬(1 ≤ a ∧ a ≤ w ∧ b + 1 < h ∧ b + 1 = sy ∧ sx + 1 ≤ a ∧ a ≤ sx + 3) ∧ t6 = 0))
    (f7 : ((a < w ∧ b + 1 < h ∧ b + 1 = sy ∧ sx ≤ a ∧ a ≤ sx + 2) ∧ t7 = 1) ∨ (¬(a < w ∧ b + 1 < h ∧ b + 1 = sy ∧ sx ≤ a ∧ a ≤ sx + 2) ∧ t7 = 0))
    (f8 : ((a + 1 < w ∧ b + 1 < h ∧ b + 1 = sy ∧ sx ≤ a + 1 ∧ a + 1 ≤ sx + 2) ∧ t8 = 1) ∨ (¬(a + 1 < w ∧ b + 1 < h ∧ b + 1 = sy ∧ sx ≤ a + 1 ∧ a + 1 ≤ sx + 2) ∧ t8 = 0)) :
    (((b = sy ∧ sx ≤ a ∧ a ≤ sx + 2) ∧ (t1 + t2 + t3 + t4 + t5 + t6 + t7 + t8 = 2 ∨ t1 + t2 + t3 + t4 + t5 + t6 + t7 + t8 = 3)) ∨
        (¬(b = sy ∧ sx ≤ a ∧ a ≤ sx + 2) ∧ t1 + t2 + t3 + t4 + t5 + t6 + t7 + t8 = 3)) ↔
      (a = sx + 1 ∧ sy - 1 ≤ b ∧ b ≤ sy + 1) := by
  by_cases hbA : b + 1 = sy
  · have z1 : t1 = 0 := term_resolve f1 (fun hc => hc.2.2.2.2.1) (yneqA1 hbA)
    have z2 : t2 = 0 := term_resolve f2 (fun hc => hc.2.2.2.1) (yneqA1 hbA)
    have z3 : t3 = 0 := term_resolve f3 (fun hc => hc.2.2.2.1) (yneqA1 hbA)
    have z4 : t4 = 0 := term_resolve f4 (fun hc => hc.2.2.2.1) (yneqA2 hbA)
    have z5 : t5 = 0 := term_resolve f5 (fun hc => hc.2.2.1) (yneqA2 hbA)
    clear f1 f2 f3 f4 f5
    omega
  · by_cases hbB : b = sy
    · have z1 : t1 = 0 := term_resolve f1 (fun hc => hc.2.2.2.2.1) (yneqB1 hbB)
      have z2 : t2 = 0 := term_resolve f2 (fun hc => hc.2.2.2.1) (yneqB1 hbB)
      have z3 : t3 = 0 := term_resolve f3 (fun hc => hc.2.2.2.1) (yneqB1 hbB)
      have z6 : t6 = 0 := term_resolve f6 (fun hc => hc.2.2.2.1) (yneqB2 hbB)
      have z7 : t7 = 0 := term_resolve f7 (fun hc => hc.2.2.1) (yneqB2 hbB)
      have z8 : t8 = 0 := term_resolve f8 (fun hc => hc.2.2.1) (yneqB2 hbB)
      clear f1 f2 f3 f6 f7 f8
      omega
    · by_cases hbC : b = sy + 1
      · have z4 : t4 = 0 := term_resolve f4 (fun hc => hc.2.2.2.1) (yneqC1 hbC)
        have z5 : t5 = 0 := term_resolve f5 (fun hc => hc.2.2.1) (yneqC1 hbC)
        have z6 : t6 = 0 := term_resolve f6 (fun hc => hc.2.2.2.1) (yneqC2 hbC)
        have z7 : t7 = 0 := term_resolve f7 (fun hc => hc.2.2.1) (yneqC2 hbC)
        have z8 : t8 = 0 := term_resolve f8 (fun hc => hc.2.2.1) (yneqC2 hbC)
        clear f4 f5 f6 f7 f8
        omega
      · have z1 : t1 = 0 := term_resolve f1 (fun hc => hc.2.2.2.2.1) hbC
        have z2 : t2 = 0 := term_resolve f2 (fun hc => hc.2.2.2.1) hbC
        have z3 : t3 = 0 := term_resolve f3 (fun hc => hc.2.2.2.1) hbC
        have z4 : t4 = 0 := term_resolve f4 (fun hc => hc.2.2.2.1) hbB
        have z5 : t5 = 0 := term_resolve f5 (fun hc => hc.2.2.1) hbB
        have z6 : t6 = 0 := term_resolve f6 (fun hc => hc.2.2.2.1) hbA
        have z7 : t7 = 0 := term_resolve f7 (fun hc => hc.2.2.1) hbA
        have z8 : t8 = 0 := term_resolve f8 (fun hc => hc.2.2.1) hbA
        clear f1 f2 f3 f4 f5 f6 f7 f8
        omega

/-- Neighbor-count bookkeeping for the vertical blinker phase: the next
state of an in-bounds cell is exactly the horizontal phase. -/
theorem blinker_count_V (w h sx sy a b t1 t2 t3 t4 t5 t6 t7 t8 : Nat)
    (hsxb : 2 * sx + 3 ≤ w ∧ w ≤ 2 * sx + 4)
    (hsyb : 2 * sy + 1 ≤ h ∧ h ≤ 2 * sy + 2 ∧ 1 ≤ sy)
    (hin : a < w ∧ b < h)
    (f1 : ((1 ≤ a ∧ a ≤ w ∧ 1 ≤ b ∧ b ≤ h ∧ a = sx + 2 ∧ sy ≤ b ∧ b ≤ sy + 2) ∧ t1 = 1) ∨ (¬(1 ≤ a ∧ a ≤ w ∧ 1 ≤ b ∧ b ≤ h ∧ a = sx + 2 ∧ sy ≤ b ∧ b ≤ sy + 2) ∧ t1 = 0))
    (f2 : ((a < w ∧ 1 ≤ b ∧ b ≤ h ∧ a = sx + 1 ∧ sy ≤ b ∧ b ≤ sy + 2) ∧ t2 = 1) ∨ (¬(a < w ∧ 1 ≤ b ∧ b ≤ h ∧ a = sx + 1 ∧ sy ≤ b ∧ b ≤ sy + 2) ∧ t2 = 0))
    (f3 : ((a + 1 < w ∧ 1 ≤ b ∧ b ≤ h ∧ a = sx ∧ sy ≤ b ∧ b ≤ sy + 2) ∧ t3 = 1) ∨ (¬(a + 1 < w ∧ 1 ≤ b ∧ b ≤ h ∧ a = sx ∧ sy ≤ b ∧ b ≤ sy + 2) ∧ t3 = 0))
    (f4 : ((1 ≤ a ∧ a ≤ w ∧ b < h ∧ a = sx + 2 ∧ sy ≤ b + 1 ∧ b ≤ sy + 1) ∧ t4 = 1) ∨ (¬(1 ≤ a ∧ a ≤ w ∧ b < h ∧ a = sx + 2 ∧ sy ≤ b + 1 ∧ b ≤ sy + 1) ∧ t4 = 0))
    (f5 : ((a + 1 < w ∧ b < h ∧ a = sx ∧ sy ≤ b + 1 ∧ b ≤ sy + 1) ∧ t5 = 1) ∨ (¬(a + 1 < w ∧ b < h ∧ a = sx ∧ sy ≤ b + 1 ∧ b ≤ sy + 1) ∧ t5 = 0))
    (f6 : ((1 ≤ a ∧ a ≤ w ∧ b + 1 < h ∧ a = sx + 2 ∧ sy ≤ b + 2 ∧ b + 1 ≤ sy + 1) ∧ t6 = 1) ∨ (¬(1 ≤ a ∧ a ≤ w ∧ b + 1 < h ∧ a = sx + 2 ∧ sy ≤ b + 2 ∧ b + 1 ≤ sy + 1) ∧ t6 = 0))
    (f7 : ((a < w ∧ b + 1 < h ∧ a = sx + 1 ∧ sy ≤ b + 2 ∧ b + 1 ≤ sy + 1) ∧ t7 = 1) ∨ (¬(a < w ∧ b + 1 < h ∧ a = sx + 1 ∧ sy ≤ b + 2 ∧ b + 1 ≤ sy + 1) ∧ t7 = 0))
    (f8 : ((a + 1 < w ∧ b + 1 < h ∧ a = sx ∧ sy ≤ b + 2 ∧ b + 1 ≤ sy + 1) ∧ t8 = 1) ∨ (¬(a + 1 < w ∧ b + 1 < h ∧ a = sx ∧ sy ≤ b + 2 ∧ b + 1 ≤ sy + 1) ∧ t8 = 0)) :
    (((a = sx + 1 ∧ sy - 1 ≤ b ∧ b ≤ sy + 1) ∧ (t1 + t2 + t3 + t4 + t5 + t6 + t7 + t8 = 2 ∨ t1 + t2 + t3 + t4 + t5 + t6 + t7 + t8 = 3)) ∨
        (¬(a = sx + 1 ∧ sy - 1 ≤ b ∧ b ≤ sy + 1) ∧ t1 + t2 + t3 + t4 + t5 + t6 + t7 + t8 = 3)) ↔
      (b = sy ∧ sx ≤ a ∧ a ≤ sx + 2) := by
  by_cases haX : a = sx
  · have z1 : t1 = 0 := term_resolve f1 (fun hc => hc.2.2.2.2.1) (xneq02 haX)
    have z4 : t4 = 0 := term_resolve f4 (fun hc => hc.2.2.2.1) (xneq02 haX)
    have z6 : t6 = 0 := term_resolve f6 (fun hc => hc.2.2.2.1) (xneq02 haX)
    have z2 : t2 = 0 := term_resolve f2 (fun hc => hc.2.2.2.1) (xneq01 haX)
    have z7 : t7 = 0 := term_resolve f7 (fun hc => hc.2.2.1) (xneq01 haX)
    clear f1 f2 f4 f6 f7
    omega
  · by_cases haY : a = sx + 1
    · have z1 : t1 = 0 := term_resolve f1 (fun hc => hc.2.2.2.2.1) (xneq12 haY)
      have z4 : t4 = 0 := term_resolve f4 (fun hc => hc.2.2.2.1) (xneq12 haY)
      have z6 : t6 = 0 := term_resolve f6 (fun hc => hc.2.2.2.1) (xneq12 haY)
      have z3 : t3 = 0 := term_resolve f3 (fun hc => hc.2.2.2.1) (xneq10 haY)
      have z5 : t5 = 0 := term_resolve f5 (fun hc => hc.2.2.1) (xneq10 haY)
      have z8 : t8 = 0 := term_resolve f8 (fun hc => hc.2.2.1) (xneq10 haY)
      clear f1 f3 f4 f5 f6 f8
      omega
    · by_cases haZ : a = sx + 2
      · have z2 : t2 = 0 := term_resolve f2 (fun hc => hc.2.2.2.1) (xneq21 haZ)
        have z7 : t7 = 0 := term_resolve f7 (fun hc => hc.2.2.1) (xneq21 haZ)
        have z3 : t3 = 0 := term_resolve f3 (fun hc => hc.2.2.2.1) (xneq20 haZ)
        have z5 : t5 = 0 := term_resolve f5 (fun hc => hc.2.2.1) (xneq20 haZ)
        have z8 : t8 = 0 := term_resolve f8 (fun hc => hc.2.2.1) (xneq20 haZ)
        clear f2 f3 f5 f7 f8
        omega
      · have z1 : t1 = 0 := term_resolve f1 (fun hc => hc.2.2.2.2.1) haZ
        have z4 : t4 = 0 := term_resolve f4 (fun hc => hc.2.2.2.1) haZ
        have z6 : t6 = 0 := term_resolve f6 (fun hc => hc.2.2.2.1) haZ
        have z2 : t2 = 0 := term_resolve f2 (fun hc => hc.2.2.2.1) haY
        have z7 : t7 = 0 := term_resolve f7 (fun hc => hc.2.2.1) haY
        have z3 : t3 = 0 := term_resolve f3 (fun hc => hc.2.2.2.1) haX
        have z5 : t5 = 0 := term_resolve f5 (fun hc => hc.2.2.1) haX
        have z8 : t8 = 0 := term_resolve f8 (fun hc => hc.2.2.1) haX
        clear f1 f2 f3 f4 f5 f6 f7 f8
        omega

/-- One generation takes the horizontal blinker phase to the vertical phase
(for any grid at least 3×3). -/
theorem blinker_step1_cellAt (g1 : Grid) (w h : Nat) (hw : g1.width = w)
    (hh : g1.height = h) (hw3 : 3 ≤ w) (hh3 : 3 ≤ h)
    (hwM : w < 2147483648) (hhM : h < 2147483648)
    (hchar : ∀ a b, g1.cellAt a b = decide (blinkH w h a b)) :
    ∀ a b, g1.nextGeneration.cellAt a b = decide (blinkV w h a b) := by
  intro a b
  rw [Grid.cellAt_of_cells_eq_mkCells g1.nextGeneration g1.width g1.height _
    rfl a b, hw, hh]
  obtain ⟨sx, hsx⟩ : ∃ sx, (w - 3) / 2 = sx := ⟨_, rfl⟩
  obtain ⟨sy, hsy⟩ : ∃ sy, (h - 1) / 2 = sy := ⟨_, rfl⟩
  have hsxb : 2 * sx + 3 ≤ w ∧ w ≤ 2 * sx + 4 := by omega
  have hsyb : 2 * sy + 1 ≤ h ∧ h ≤ 2 * sy + 2 ∧ 1 ≤ sy := by omega
  by_cases hin : a < w ∧ b < h
  · rw [if_pos hin]
    have e1 := g1.neighborTerm_char (blinkH w h) hchar a b (-1) (-1)
        (by omega) (by omega) (by omega) (by omega)
    have e2 := g1.neighborTerm_char (blinkH w h) hchar a b 0 (-1)
        (by omega) (by omega) (by omega) (by omega)
    have e3 := g1.neighborTerm_char (blinkH w h) hchar a b 1 (-1)
        (by omega) (by omega) (by omega) (by omega)
    have e4 := g1.neighborTerm_char (blinkH w h) hchar a b (-1) 0
        (by omega) (by omega) (by omega) (by omega)
    have e5 := g1.neighborTerm_char (blinkH w h) hchar a b 1 0
        (by omega) (by omega) (by omega) (by omega)
    have e6 := g1.neighborTerm_char (blinkH w h) hchar a b (-1) 1
        (by omega) (by omega) (by omega) (by omega)
    have e7 := g1.neighborTerm_char (blinkH w h) hchar a b 0 1
        (by omega) (by omega) (by omega) (by omega)
    have e8 := g1.neighborTerm_char (blinkH w h) hchar a b 1 1
        (by omega) (by omega) (by omega) (by omega)
    rw [hw, hh] at e1 e2 e3 e4 e5 e6 e7 e8
    have d1 := ite_one_zero_cases e1
    have d2 := ite_one_zero_cases e2
    have d3 := ite_one_zero_cases e3
    have d4 := ite_one_zero_cases e4
    have d5 := ite_one_zero_cases e5
    have d6 := ite_one_zero_cases e6
    have d7 := ite_one_zero_cases e7
    have d8 := ite_one_zero_cases e8
    clear e1 e2 e3 e4 e5 e6 e7 e8
    unfold blinkH at d1 d2 d3 d4 d5 d6 d7 d8
    rw [hsx, hsy] at d1 d2 d3 d4 d5 d6 d7 d8
    obtain ⟨t1, ht1⟩ : ∃ t, g1.neighborTerm a b (-1) (-1) = t := ⟨_, rfl⟩
    obtain ⟨t2, ht2⟩ : ∃ t, g1.neighborTerm a b 0 (-1) = t := ⟨_, rfl⟩
    obtain ⟨t3, ht3⟩ : ∃ t, g1.neighborTerm a b 1 (-1) = t := ⟨_, rfl⟩
    obtain ⟨t4, ht4⟩ : ∃ t, g1.neighborTerm a b (-1) 0 = t := ⟨_, rfl⟩
    obtain ⟨t5, ht5⟩ : ∃ t, g1.neighborTerm a b 1 0 = t := ⟨_, rfl⟩
    obtain ⟨t6, ht6⟩ : ∃ t, g1.neighborTerm a b (-1) 1 = t := ⟨_, rfl⟩
    obtain ⟨t7, ht7⟩ : ∃ t, g1.neighborTerm a b 0 1 = t := ⟨_, rfl⟩
    obtain ⟨t8, ht8⟩ : ∃ t, g1.neighborTerm a b 1 1 = t := ⟨_, rfl⟩
    rw [ht1] at d1
    rw [ht2] at d2
    rw [ht3] at d3
    rw [ht4] at d4
    rw [ht5] at d5
    rw [ht6] at d6
    rw [ht7] at d7
    rw [ht8] at d8
    have f1 := term_cases_equiv d1 (fun hc => convH1.mp hc) (fun hc => convH1.mpr hc)
    have f2 := term_cases_equiv d2 (fun hc => convH2.mp hc) (fun hc => convH2.mpr hc)
    have f3 := term_cases_equiv d3 (fun hc => convH3.mp hc) (fun hc => convH3.mpr hc)
    have f4 := term_cases_equiv d4 (fun hc => convH4.mp hc) (fun hc => convH4.mpr hc)
    have f5 := term_cases_equiv d5 (fun hc => convH5.mp hc) (fun hc => convH5.mpr hc)
    have f6 := term_cases_equiv d6 (fun hc => convH6.mp hc) (fun hc => convH6.mpr hc)
    have f7 := term_cases_equiv d7 (fun hc => convH7.mp hc) (fun hc => convH7.mpr hc)
    have f8 := term_cases_equiv d8 (fun hc => convH8.mp hc) (fun hc => convH8.mpr hc)
    clear d1 d2 d3 d4 d5 d6 d7 d8
    rw [hchar a b]
    apply ite_decide_eq_decide
    simp only [Grid.countLiveNeighbors]
    rw [ht1, ht2, ht3, ht4, ht5, ht6, ht7, ht8]
    unfold blinkH blinkV
    rw [hsx, hsy]
    exact blinker_count_H w h sx sy a b t1 t2 t3 t4 t5 t6 t7 t8 hsxb hsyb hin
      f1 f2 f3 f4 f5 f6 f7 f8
  · rw [if_neg hin]
    symm
    simp only [decide_eq_false_iff_not]
    unfold blinkV
    omega

/-- One generation takes the vertical blinker phase to the horizontal phase
(for any grid at least 3×3). -/
theorem blinker_step2_cellAt (g2 : Grid) (w h : Nat) (hw : g2.width = w)
    (hh : g2.height = h) (hw3 : 3 ≤ w) (hh3 : 3 ≤ h)
    (hwM : w < 2147483648) (hhM : h < 2147483648)
    (hchar : ∀ a b, g2.cellAt a b = decide (blinkV w h a b)) :
    ∀ a b, g2.nextGeneration.cellAt a b = decide (blinkH w h a b) := by
  intro a b
  rw [Grid.cellAt_of_cells_eq_mkCells g2.nextGeneration g2.width g2.height _
    rfl a b, hw, hh]
  obtain ⟨sx, hsx⟩ : ∃ sx, (w - 3) / 2 = sx := ⟨_, rfl⟩
  obtain ⟨sy, hsy⟩ : ∃ sy, (h - 1) / 2 = sy := ⟨_, rfl⟩
  have hsxb : 2 * sx + 3 ≤ w ∧ w ≤ 2 * sx + 4 := by omega
  have hsyb : 2 * sy + 1 ≤ h ∧ h ≤ 2 * sy + 2 ∧ 1 ≤ sy := by omega
  by_cases hin : a < w ∧ b < h
  · rw [if_pos hin]
    have e1 := g2.neighborTerm_char (blinkV w h) hchar a b (-1) (-1)
        (by omega) (by omega) (by omega) (by omega)
    have e2 := g2.neighborTerm_char (blinkV w h) hchar a b 0 (-1)
        (by omega) (by omega) (by omega) (by omega)
    have e3 := g2.neighborTerm_char (blinkV w h) hchar a b 1 (-1)
        (by omega) (by omega) (by omega) (by omega)
    have e4 := g2.neighborTerm_char (blinkV w h) hchar a b (-1) 0
        (by omega) (by omega) (by omega) (by omega)
    have e5 := g2.neighborTerm_char (blinkV w h) hchar a b 1 0
        (by omega) (by omega) (by omega) (by omega)
    have e6 := g2.neighborTerm_char (blinkV w h) hchar a b (-1) 1
        (by omega) (by omega) (by omega) (by omega)
    have e7 := g2.neighborTerm_char (blinkV w h) hchar a b 0 1
        (by omega) (by omega) (by omega) (by omega)
    have e8 := g2.neighborTerm_char (blinkV w h) hchar a b 1 1
        (by omega) (by omega) (by omega) (by omega)
    rw [hw, hh] at e1 e2 e3 e4 e5 e6 e7 e8
    have d1 := ite_one_zero_cases e1
    have d2 := ite_one_zero_cases e2
    have d3 := ite_one_zero_cases e3
    have d4 := ite_one_zero_cases e4
    have d5 := ite_one_zero_cases e5
    have d6 := ite_one_zero_cases e6
    have d7 := ite_one_zero_cases e7
    have d8 := ite_one_zero_cases e8
    clear e1 e2 e3 e4 e5 e6 e7 e8
    unfold blinkV at d1 d2 d3 d4 d5 d6 d7 d8
    rw [hsx, hsy] at d1 d2 d3 d4 d5 d6 d7 d8
    obtain ⟨t1, ht1⟩ : ∃ t, g2.neighborTerm a b (-1) (-1) = t := ⟨_, rfl⟩
    obtain ⟨t2, ht2⟩ : ∃ t, g2.neighborTerm a b 0 (-1) = t := ⟨_, rfl⟩
    obtain ⟨t3, ht3⟩ : ∃ t, g2.neighborTerm a b 1 (-1) = t := ⟨_, rfl⟩
    obtain ⟨t4, ht4⟩ : ∃ t, g2.neighborTerm a b (-1) 0 = t := ⟨_, rfl⟩
    obtain ⟨t5, ht5⟩ : ∃ t, g2.neighborTerm a b 1 0 = t := ⟨_, rfl⟩
    obtain ⟨t6, ht6⟩ : ∃ t, g2.neighborTerm a b (-1) 1 = t := ⟨_, rfl⟩
    obtain ⟨t7, ht7⟩ : ∃ t, g2.neighborTerm a b 0 1 = t := ⟨_, rfl⟩
    obtain ⟨t8, ht8⟩ : ∃ t, g2.neighborTerm a b 1 1 = t := ⟨_, rfl⟩
    rw [ht1] at d1
    rw [ht2] at d2
    rw [ht3] at d3
    rw [ht4] at d4
    rw [ht5] at d5
    rw [ht6] at d6
    rw [ht7] at d7
    rw [ht8] at d8
    have f1 := term_cases_equiv d1 (fun hc => convV1.mp hc) (fun hc => convV1.mpr hc)
    have f2 := term_cases_equiv d2 (fun hc => convV2.mp hc) (fun hc => convV2.mpr hc)
    have f3 := term_cases_equiv d3 (fun hc => convV3.mp hc) (fun hc => convV3.mpr hc)
    have f4 := term_cases_equiv d4 (fun hc => convV4.mp hc) (fun hc => convV4.mpr hc)
    have f5 := term_cases_equiv d5 (fun hc => convV5.mp hc) (fun hc => convV5.mpr hc)
    have f6 := term_cases_equiv d6 (fun hc => convV6.mp hc) (fun hc => convV6.mpr hc)
    have f7 := term_cases_equiv d7 (fun hc => convV7.mp hc) (fun hc => convV7.mpr hc)
    have f8 := term_cases_equiv d8 (fun hc => convV8.mp hc) (fun hc => convV8.mpr hc)
    clear d1 d2 d3 d4 d5 d6 d7 d8
    rw [hchar a b]
    apply ite_decide_eq_decide
    simp only [Grid.countLiveNeighbors]
    rw [ht1, ht2, ht3, ht4, ht5, ht6, ht7, ht8]
    unfold blinkV blinkH
    rw [hsx, hsy]
    exact blinker_count_V w h sx sy a b t1 t2 t3 t4 t5 t6 t7 t8 hsxb hsyb hin
      f1 f2 f3 f4 f5 f6 f7 f8
  · rw [if_neg hin]
    symm
    simp only [decide_eq_false_iff_not]
    unfold blinkH
    omega

set_option maxHeartbeats 400000

/-- C9 counterexample: on a 4×1 grid the blinker (placed by
`applyPattern "blinker"` at offset `(0, 0)`) does NOT return to its
starting configuration after two generations — the claim's "for every
grid" fails for grids without vertical room. -/
theorem blinker_period_two_counterexample :
    (runApplyPattern (fun g _ => g) defaultManager (Grid.make 4 1)
        "blinker").err = none ∧
      (runApplyPattern (fun g _ => g) defaultManager (Grid.make 4 1)
          "blinker").grid.nextGeneration.nextGeneration
        ≠ (runApplyPattern (fun g _ => g) defaultManager (Grid.make 4 1)
            "blinker").grid := by
  constructor
  · decide
  · decide

/-- C9 (amended): on every grid of width ≥ 3 and height ≥ 3 with both
dimensions below `2^31` (so the `static_cast<int>` bounds inside
`countLiveNeighbors` stay positive), applying the built-in `"blinker"`
pattern and then calling `nextGeneration` exactly twice returns the grid
to the configuration it had right after the pattern was applied.  (For a
dimension at or above `2^31` the wrapped cast zeroes every neighbor
count and the placed blinker dies instead.) -/
theorem blinker_period_two :
    ∀ (rf : Grid → Float → Grid) (g : Grid),
      3 ≤ g.width → g.width < 2147483648 → 3 ≤ g.height → g.height < 2147483648 →
      ((runApplyPattern rf defaultManager g "blinker").err = none ∧
        (runApplyPattern rf defaultManager g
            "blinker").grid.nextGeneration.nextGeneration
          = (runApplyPattern rf defaultManager g "blinker").grid) := by
  intro rf g hw3 hwM hh3 hhM
  have hf : defaultManager.find? "blinker" = some blinkerPattern := by decide
  have hclear : clearGrid g = g.clear := rfl
  have hrun : runApplyPattern rf defaultManager g "blinker"
      = ⟨defaultManager, placePattern g.clear blinkerPattern
          (calculateCenterPosition g.clear blinkerPattern).1
          (calculateCenterPosition g.clear blinkerPattern).2, none⟩ := by
    rw [runApplyPattern, if_neg (by decide), if_neg (by decide),
      if_neg (by decide), hclear,
      runApplyPatternCentered_eq_of_found defaultManager g.clear "blinker"
        blinkerPattern hf]
  rw [hrun]
  dsimp only
  refine ⟨rfl, ?_⟩
  have hchar1 := blinker_start_cellAt g hw3 (by unfold U32MOD; omega) hh3
    (by unfold U32MOD; omega)
  have hw1 : (placePattern g.clear blinkerPattern
      (calculateCenterPosition g.clear blinkerPattern).1
      (calculateCenterPosition g.clear blinkerPattern).2).width = g.width := by
    rw [width_placePattern]
    rfl
  have hh1 : (placePattern g.clear blinkerPattern
      (calculateCenterPosition g.clear blinkerPattern).1
      (calculateCenterPosition g.clear blinkerPattern).2).height = g.height := by
    rw [height_placePattern]
    rfl
  have hchar2 := blinker_step1_cellAt _ g.width g.height hw1 hh1 hw3 hh3 hwM hhM hchar1
  have hw2 : (placePattern g.clear blinkerPattern
      (calculateCenterPosition g.clear blinkerPattern).1
      (calculateCenterPosition g.clear blinkerPattern).2).nextGeneration.width
      = g.width := by
    rw [Grid.width_nextGeneration, hw1]
  have hh2 : (placePattern g.clear blinkerPattern
      (calculateCenterPosition g.clear blinkerPattern).1
      (calculateCenterPosition g.clear blinkerPattern).2).nextGeneration.height
      = g.height := by
    rw [Grid.height_nextGeneration, hh1]
  have hchar3 := blinker_step2_cellAt _ g.width g.height hw2 hh2 hw3 hh3 hwM hhM hchar2
  apply Grid.eq_of_fields
  · rw [Grid.width_nextGeneration, Grid.width_nextGeneration]
  · rw [Grid.height_nextGeneration, Grid.height_nextGeneration]
  · apply Grid.cells_ext (Grid.WF_nextGeneration _)
      (WF_placePattern g.clear (Grid.WF_clear g) blinkerPattern _ _)
    · rw [Grid.width_nextGeneration, Grid.width_nextGeneration]
    · rw [Grid.height_nextGeneration, Grid.height_nextGeneration]
    · intro a b
      rw [hchar3 a b, hchar1 a b]

/-- Witness for `blinker_period_two`: the 5×5 grid. -/
theorem blinker_period_two_witness :
    (3 ≤ (Grid.make 5 5).width ∧ (Grid.make 5 5).width < 2147483648 ∧
      3 ≤ (Grid.make 5 5).height ∧ (Grid.make 5 5).height < 2147483648) ∧
      ((runApplyPattern (fun g _ => g) defaultManager (Grid.make 5 5)
          "blinker").err = none ∧
        (runApplyPattern (fun g _ => g) defaultManager (Grid.make 5 5)
            "blinker").grid.nextGeneration.nextGeneration
          = (runApplyPattern (fun g _ => g) defaultManager (Grid.make 5 5)
              "blinker").grid) :=
  ⟨⟨by decide, by decide, by decide, by decide⟩,
    blinker_period_two (fun g _ => g) (Grid.make 5 5) (by decide) (by decide)
      (by decide) (by decide)⟩
